import Mathlib

/-! Robot car on Hi3861: mode state machine, input classifier, obstacle avoidance, motor
actuator.

A shallow embedding of `robot_control.c` and `robot_l9110s.c`.

* C globals become the fields of `Car`, threaded explicitly through every function.
* `unsigned int` / `unsigned short` arithmetic is arithmetic on `Nat` with an explicit
  reduction modulo `2 ^ 32` / `2 ^ 16`.
* Calls into the platform (`hi_pwm_start`, `hi_pwm_stop`, `hi_sleep`, the steering servo,
  the ranging sensor, the ADC) are recorded, in call order, in `Car.trace`; the values
  the platform hands back (`hi_get_tick`, `hi_adc_read`, `GetDistance`) are arguments.
* `float` values are modelled by exact rationals.
* `printf` calls are console output only and are left out.

The header `robot_control.h` is not among the sources; what it declares is either
modelled from the specification (the mode enumeration, the two turn codes, the safe
distance) or taken as an argument (`KEY_INTERRUPT_PROTECT_TIME`).  The line-follow
collaborator `trace_module` is an argument of the dispatch loop.  Values of `g_car_status`
that the interrupt handler writes while the avoidance loop runs are given as the list of
the values the loop reads.
-/

namespace RobotCar

/-! ## Data model -/

/-- Modelled from the spec: the mode enumeration of `robot_control.h` (header missing from
the sources).  The spec's OperatingMode has exactly the variants Stopped, LineFollow,
ObstacleAvoidance and RemoteControl; the constructors carry the names the C code uses. -/
inductive CarStatus where
  | CAR_STOP_STATUS
  | CAR_TRACE_STATUS
  | CAR_OBSTACLE_AVOIDANCE_STATUS
  | CAR_CONTROL_STATUS
  deriving DecidableEq, Repr

/-- Modelled from the spec: the two turn codes `CAR_TURN_LEFT` / `CAR_TURN_RIGHT` of
`robot_control.h` (header missing from the sources); the spec's `choose_direction`
returns one of `{Left, Right}`. -/
inductive TurnDir where
  | CAR_TURN_LEFT
  | CAR_TURN_RIGHT
  deriving DecidableEq, Repr

/-- Modelled from the spec: `DISTANCE_BETWEEN_CAR_AND_OBSTACLE` of `robot_control.h`
(header missing from the sources); the spec's `SAFE_DISTANCE` is 20 cm. -/
def DISTANCE_BETWEEN_CAR_AND_OBSTACLE : ℚ := 20

/-- The four PWM ports the motor driver uses. -/
inductive PwmPort where
  | HI_PWM_PORT_PWM0
  | HI_PWM_PORT_PWM1
  | HI_PWM_PORT_PWM3
  | HI_PWM_PORT_PWM4
  deriving DecidableEq, Repr

/-- State of the four PWM channels: `none` is a stopped channel, `some (duty, freq)` a
channel running with the two arguments last given to `hi_pwm_start`. -/
structure PwmChannels where
  pwm0 : Option (Nat × Nat)
  pwm1 : Option (Nat × Nat)
  pwm3 : Option (Nat × Nat)
  pwm4 : Option (Nat × Nat)
  deriving DecidableEq, Repr

/-- Platform calls and writes of `MOVING_STATUS`, as they are recorded in `Car.trace`. -/
inductive Event where
  | hi_pwm_stop (port : PwmPort)
  | hi_pwm_start (port : PwmPort) (duty freq : Nat)
  | hi_sleep (ms : Nat)
  | MOVING_STATUS (value : Nat)
  | engine_turn_left
  | engine_turn_right
  | regress_middle
  | GetDistance
  | hi_adc_read
  | IoTGpioInit (id : Nat)
  | hi_io_set_func (id : Nat) (pwm_out : PwmPort)
  | hi_pwm_init (port : PwmPort)
  | IoTWatchDogDisable
  | osDelay (ticks : Nat)
  deriving DecidableEq, Repr

/-- The globals of `robot_control.c` and `robot_l9110s.c`, the PWM channel state and the
record of platform calls (oldest first). -/
structure Car where
  g_gpio5_adc_buf : List Nat
  g_gpio5_tick : Nat
  g_car_status : CarStatus
  MOVING_STATUS : Nat
  SPEED_TURN : Nat
  SPEED_FORWARD : Nat
  SPEED_BACKWARD : Nat
  pwm : PwmChannels
  trace : List Event
  deriving DecidableEq, Repr

/-- The constant `PWM_DUTY_MAX` of `robot_l9110s.c`. -/
def PWM_DUTY_MAX : Nat := 8000

/-- The constant `ADC_TEST_LENGTH` of `robot_control.c`. -/
def ADC_TEST_LENGTH : Nat := 20

/-- All four channels stopped. -/
def PwmChannels.off : PwmChannels :=
  { pwm0 := none, pwm1 := none, pwm3 := none, pwm4 := none }

/-- The globals as their initialisers leave them, with the debounce timestamp as
`interrupt_monitor` sets it (`g_gpio5_tick = hi_get_tick()`). -/
def startup (hi_get_tick : Nat) : Car :=
  { g_gpio5_adc_buf := List.replicate 20 0
    g_gpio5_tick := hi_get_tick % 4294967296
    g_car_status := CarStatus.CAR_STOP_STATUS
    MOVING_STATUS := 0
    SPEED_TURN := 6000
    SPEED_FORWARD := 6000
    SPEED_BACKWARD := 5000
    pwm := PwmChannels.off
    trace := [] }

/-- Appends one event to the record of platform calls. -/
def Car.log (s : Car) (e : Event) : Car :=
  { s with trace := s.trace ++ [e] }

/-! ## `robot_control.c`: debounced mode switch -/

/-- The `unsigned int` difference `a - b`, for `a` and `b` below `2 ^ 32`. -/
def sub_u32 (a b : Nat) : Nat :=
  (a + (4294967296 - b % 4294967296)) % 4294967296

/-- The handler `gpio5_isr_func_mode`: `hi_get_tick` is the value the tick counter returns. -/
def gpio5_isr_func_mode (KEY_INTERRUPT_PROTECT_TIME : Nat) (hi_get_tick : Nat) (s : Car) : Car :=
  let current_gpio5_tick := hi_get_tick % 4294967296
  let tick_interval := sub_u32 current_gpio5_tick s.g_gpio5_tick
  if tick_interval < KEY_INTERRUPT_PROTECT_TIME then
    s
  else
    let s := { s with g_gpio5_tick := current_gpio5_tick }
    if s.g_car_status = CarStatus.CAR_STOP_STATUS then
      { s with g_car_status := CarStatus.CAR_TRACE_STATUS }
    else if s.g_car_status = CarStatus.CAR_TRACE_STATUS then
      { s with g_car_status := CarStatus.CAR_OBSTACLE_AVOIDANCE_STATUS }
    else if s.g_car_status = CarStatus.CAR_OBSTACLE_AVOIDANCE_STATUS then
      { s with g_car_status := CarStatus.CAR_CONTROL_STATUS }
    else if s.g_car_status = CarStatus.CAR_CONTROL_STATUS then
      { s with g_car_status := CarStatus.CAR_STOP_STATUS }
    else
      s

/-- A sequence of mode-advance events, given by the tick read at each, handled in order. -/
def mode_events (KEY_INTERRUPT_PROTECT_TIME : Nat) (s : Car) (ticks : List Nat) : Car :=
  ticks.foldl (fun st t => gpio5_isr_func_mode KEY_INTERRUPT_PROTECT_TIME t st) s

/-- The cycle of the specification: Stopped, LineFollow, ObstacleAvoidance, RemoteControl
and back to Stopped. -/
def cycle_next : CarStatus → CarStatus
  | CarStatus.CAR_STOP_STATUS => CarStatus.CAR_TRACE_STATUS
  | CarStatus.CAR_TRACE_STATUS => CarStatus.CAR_OBSTACLE_AVOIDANCE_STATUS
  | CarStatus.CAR_OBSTACLE_AVOIDANCE_STATUS => CarStatus.CAR_CONTROL_STATUS
  | CarStatus.CAR_CONTROL_STATUS => CarStatus.CAR_STOP_STATUS

/-- Every event lies at least the protect time (modulo `2 ^ 32`) after the one before it,
the first one after the tick `last`. -/
def spaced (KEY_INTERRUPT_PROTECT_TIME : Nat) : Nat → List Nat → Prop
  | _, [] => True
  | last, t :: ts =>
    KEY_INTERRUPT_PROTECT_TIME ≤ sub_u32 (t % 4294967296) last
      ∧ spaced KEY_INTERRUPT_PROTECT_TIME (t % 4294967296) ts

/-- The predicate `spaced` can be evaluated. -/
instance spaced_decidable (KEY_INTERRUPT_PROTECT_TIME : Nat) :
    (last : Nat) → (ticks : List Nat) → Decidable (spaced KEY_INTERRUPT_PROTECT_TIME last ticks)
  | _, [] => isTrue trivial
  | last, t :: ts =>
    have := spaced_decidable KEY_INTERRUPT_PROTECT_TIME (t % 4294967296) ts
    inferInstanceAs
      (Decidable (KEY_INTERRUPT_PROTECT_TIME ≤ sub_u32 (t % 4294967296) last
        ∧ spaced KEY_INTERRUPT_PROTECT_TIME (t % 4294967296) ts))

/-- The events of a sequence that change the mode, each given by the time at which it
occurs; the tick counter read at time `t` is `t % 2 ^ 32`. -/
def accepted_events (KEY_INTERRUPT_PROTECT_TIME : Nat) : Car → List Nat → List Nat
  | _, [] => []
  | s, t :: ts =>
    if (gpio5_isr_func_mode KEY_INTERRUPT_PROTECT_TIME t s).g_car_status ≠ s.g_car_status then
      t :: accepted_events KEY_INTERRUPT_PROTECT_TIME
        (gpio5_isr_func_mode KEY_INTERRUPT_PROTECT_TIME t s) ts
    else
      accepted_events KEY_INTERRUPT_PROTECT_TIME
        (gpio5_isr_func_mode KEY_INTERRUPT_PROTECT_TIME t s) ts

/-! ## `robot_control.c`: speed adjustment -/

/-- The speed branch of `get_gpio5_voltage` (the `if (SPEED_FORWARD <= 7000)` statement);
`SPEED_FORWARD` is an `unsigned short`, so the sum is stored modulo `2 ^ 16`. -/
def speed_adjust (s : Car) : Car :=
  if s.SPEED_FORWARD ≤ 7000 then
    { s with SPEED_FORWARD := (s.SPEED_FORWARD + 1000) % 65536 }
  else
    { s with SPEED_FORWARD := 4000 }

/-! ## `robot_control.c`: input classifier -/

/-- The sampling loop of `get_gpio5_voltage`, with `n` iterations left and loop index `i`.
`hi_adc_read k` is what the read at index `k` of the pass yields: `none` for a read that
fails, `some data` for a read that succeeds with the code `data`.  The flag is `false`
when the loop is left through `return NULL`. -/
def adc_sample_loop (hi_adc_read : Nat → Option Nat) : Nat → Nat → Car → Car × Bool
  | 0, _, s => (s, true)
  | n + 1, i, s =>
    match hi_adc_read i with
    | none => (s.log Event.hi_adc_read, false)
    | some data =>
      adc_sample_loop hi_adc_read n (i + 1)
        { s.log Event.hi_adc_read with g_gpio5_adc_buf := s.g_gpio5_adc_buf.set i data }

/-- The conversion `(float)vlt * 1.8 * 4 / 4096.0` of a code to a voltage, in exact
rational arithmetic. -/
def code_voltage (vlt : Nat) : ℚ :=
  (vlt : ℚ) * 1.8 * 4 / 4096.0

/-- The second loop of `get_gpio5_voltage`: the running maximum `vlt_max`, starting from 0
(`vlt_min` is computed by the C code but never used). -/
def vlt_max_loop (buf : List Nat) : ℚ :=
  buf.foldl
    (fun vlt_max vlt => if code_voltage vlt > vlt_max then code_voltage vlt else vlt_max) 0

/-- The function `get_gpio5_voltage`: `hi_adc_read` gives the outcome of each read of the pass and
`hi_get_tick` the tick the mode handler would read. -/
def get_gpio5_voltage (KEY_INTERRUPT_PROTECT_TIME : Nat) (hi_adc_read : Nat → Option Nat)
    (hi_get_tick : Nat) (s : Car) : Car :=
  let s := { s with g_gpio5_adc_buf := List.replicate ADC_TEST_LENGTH 0 }
  match adc_sample_loop hi_adc_read ADC_TEST_LENGTH 0 s with
  | (s, false) => s
  | (s, true) =>
    let vlt_max := vlt_max_loop s.g_gpio5_adc_buf
    if vlt_max > 0.01 ∧ vlt_max < 0.3 then
      gpio5_isr_func_mode KEY_INTERRUPT_PROTECT_TIME hi_get_tick s
    else if vlt_max > 0.6 ∧ vlt_max < 1.5 then
      speed_adjust s
    else
      s

/-- The state a pass reaches once all reads have succeeded with the codes of `window`:
the buffer holds the window and one read per code has been recorded. -/
def sampled (s : Car) (window : List Nat) : Car :=
  { s with
    g_gpio5_adc_buf := window
    trace := s.trace ++ List.replicate window.length Event.hi_adc_read }

/-! ## `robot_l9110s.c`: motor actuator -/

/-- Replaces the state of one channel. -/
def PwmChannels.set (p : PwmChannels) (port : PwmPort) (v : Option (Nat × Nat)) : PwmChannels :=
  match port with
  | PwmPort.HI_PWM_PORT_PWM0 => { p with pwm0 := v }
  | PwmPort.HI_PWM_PORT_PWM1 => { p with pwm1 := v }
  | PwmPort.HI_PWM_PORT_PWM3 => { p with pwm3 := v }
  | PwmPort.HI_PWM_PORT_PWM4 => { p with pwm4 := v }

/-- The platform call `hi_pwm_stop(port)`: the channel is stopped. -/
def hi_pwm_stop (port : PwmPort) (s : Car) : Car :=
  { s with pwm := s.pwm.set port none, trace := s.trace ++ [Event.hi_pwm_stop port] }

/-- The platform call `hi_pwm_start(port, duty, freq)`: the channel runs with that duty. -/
def hi_pwm_start (port : PwmPort) (duty freq : Nat) (s : Car) : Car :=
  { s with
    pwm := s.pwm.set port (some (duty, freq))
    trace := s.trace ++ [Event.hi_pwm_start port duty freq] }

/-- Stops the four channels, in the order PWM3, PWM4, PWM0, PWM1. -/
def pwm_stop (s : Car) : Car :=
  let s := hi_pwm_stop PwmPort.HI_PWM_PORT_PWM3 s
  let s := hi_pwm_stop PwmPort.HI_PWM_PORT_PWM4 s
  let s := hi_pwm_stop PwmPort.HI_PWM_PORT_PWM0 s
  hi_pwm_stop PwmPort.HI_PWM_PORT_PWM1 s

/-- Forward: PWM4 and PWM1 at `SPEED_FORWARD`. -/
def car_forward (s : Car) : Car :=
  let s := pwm_stop s
  let s := hi_pwm_start PwmPort.HI_PWM_PORT_PWM4 s.SPEED_FORWARD PWM_DUTY_MAX s
  hi_pwm_start PwmPort.HI_PWM_PORT_PWM1 s.SPEED_FORWARD PWM_DUTY_MAX s

/-- Backward: PWM3 and PWM0 at `SPEED_BACKWARD`. -/
def car_backward (s : Car) : Car :=
  let s := pwm_stop s
  let s := hi_pwm_start PwmPort.HI_PWM_PORT_PWM3 s.SPEED_BACKWARD PWM_DUTY_MAX s
  hi_pwm_start PwmPort.HI_PWM_PORT_PWM0 s.SPEED_BACKWARD PWM_DUTY_MAX s

/-- Right turn: PWM0 at `SPEED_FORWARD` and PWM4 at `SPEED_TURN`. -/
def car_right (s : Car) : Car :=
  let s := pwm_stop s
  let s := hi_pwm_start PwmPort.HI_PWM_PORT_PWM0 s.SPEED_FORWARD PWM_DUTY_MAX s
  hi_pwm_start PwmPort.HI_PWM_PORT_PWM4 s.SPEED_TURN PWM_DUTY_MAX s

/-- Left turn: PWM3 at `SPEED_FORWARD` and PWM1 at `SPEED_TURN`. -/
def car_left (s : Car) : Car :=
  let s := pwm_stop s
  let s := hi_pwm_start PwmPort.HI_PWM_PORT_PWM3 s.SPEED_FORWARD PWM_DUTY_MAX s
  hi_pwm_start PwmPort.HI_PWM_PORT_PWM1 s.SPEED_TURN PWM_DUTY_MAX s

/-- Stop: all four channels stopped. -/
def car_stop (s : Car) : Car :=
  pwm_stop s

/-- The duty a channel carries: 0 for a stopped channel. -/
def duty : Option (Nat × Nat) → Nat
  | none => 0
  | some (d, _) => d

/-- The duties of the four channels, in the order PWM0, PWM1, PWM3, PWM4. -/
def PwmChannels.duties (p : PwmChannels) : List Nat :=
  [duty p.pwm0, duty p.pwm1, duty p.pwm3, duty p.pwm4]

/-- The ports started by the `hi_pwm_start` calls of a record, in call order. -/
def started_ports : List Event → List PwmPort
  | [] => []
  | Event.hi_pwm_start port _ _ :: es => port :: started_ports es
  | _ :: es => started_ports es

/-- The speed profile of `s` is one that speed-adjust events produce from the startup
values. -/
def reachable_profile (s : Car) : Prop :=
  ∃ n : Nat,
    s.SPEED_FORWARD = (speed_adjust^[n] (startup 0)).SPEED_FORWARD
      ∧ s.SPEED_TURN = (speed_adjust^[n] (startup 0)).SPEED_TURN
      ∧ s.SPEED_BACKWARD = (speed_adjust^[n] (startup 0)).SPEED_BACKWARD

/-! ## `robot_control.c`: obstacle avoidance -/

/-- The platform call `hi_sleep(ms)`. -/
def hi_sleep (ms : Nat) (s : Car) : Car :=
  s.log (Event.hi_sleep ms)

/-- The assignment `MOVING_STATUS = value`. -/
def set_MOVING_STATUS (value : Nat) (s : Car) : Car :=
  { s.log (Event.MOVING_STATUS value) with MOVING_STATUS := value }

/-- Modelled from the spec: the steering collaborator `engine_turn_left` (its source is
missing); it is synchronous, issues no drive-motor command and touches no global of these
two files, so it is only recorded. -/
def engine_turn_left (s : Car) : Car :=
  s.log Event.engine_turn_left

/-- Modelled from the spec: the steering collaborator `engine_turn_right` (its source is
missing); it is only recorded. -/
def engine_turn_right (s : Car) : Car :=
  s.log Event.engine_turn_right

/-- Modelled from the spec: the steering collaborator `regress_middle` (its source is
missing); it is only recorded. -/
def regress_middle (s : Car) : Car :=
  s.log Event.regress_middle

/-- Modelled from the spec: the ranging collaborator `GetDistance` (its source is missing);
`reading` is the distance this call returns, and the call is recorded. -/
def GetDistance (reading : ℚ) (s : Car) : ℚ × Car :=
  (reading, s.log Event.GetDistance)

/-- The function `engine_go_where`: `left_reading` and `right_reading` are what the two
calls of `GetDistance` return. -/
def engine_go_where (left_reading right_reading : ℚ) (s : Car) : TurnDir × Car :=
  let s := engine_turn_left s
  let s := hi_sleep 100 s
  let (left_distance, s) := GetDistance left_reading s
  let s := hi_sleep 100 s
  let s := regress_middle s
  let s := hi_sleep 100 s
  let s := engine_turn_right s
  let s := hi_sleep 100 s
  let (right_distance, s) := GetDistance right_reading s
  let s := hi_sleep 100 s
  let s := regress_middle s
  if left_distance > right_distance then
    (TurnDir.CAR_TURN_LEFT, s)
  else
    (TurnDir.CAR_TURN_RIGHT, s)

/-- The function `car_where_to_go`: `left_reading` and `right_reading` are the readings the scout
obtains if it runs. -/
def car_where_to_go (distance : ℚ) (left_reading right_reading : ℚ) (s : Car) : Car :=
  if distance < DISTANCE_BETWEEN_CAR_AND_OBSTACLE then
    let s := car_stop s
    let s := set_MOVING_STATUS 0 s
    let s := hi_sleep 500 s
    let s := car_backward s
    let s := set_MOVING_STATUS 5 s
    let s := hi_sleep 500 s
    let s := car_stop s
    let s := set_MOVING_STATUS 0 s
    let (ret, s) := engine_go_where left_reading right_reading s
    let s :=
      if ret = TurnDir.CAR_TURN_LEFT then
        let s := car_left s
        let s := set_MOVING_STATUS 2 s
        hi_sleep 750 s
      else if ret = TurnDir.CAR_TURN_RIGHT then
        let s := car_right s
        let s := set_MOVING_STATUS 1 s
        hi_sleep 750 s
      else
        s
    let s := car_stop s
    set_MOVING_STATUS 0 s
  else
    let s := car_forward s
    set_MOVING_STATUS 3 s

/-! ## Records of the operations, for stating what a call appends to `Car.trace` -/

/-- What `car_stop` (and `pwm_stop`) records. -/
def car_stop_events : List Event :=
  [Event.hi_pwm_stop PwmPort.HI_PWM_PORT_PWM3, Event.hi_pwm_stop PwmPort.HI_PWM_PORT_PWM4,
   Event.hi_pwm_stop PwmPort.HI_PWM_PORT_PWM0, Event.hi_pwm_stop PwmPort.HI_PWM_PORT_PWM1]

/-- What `car_forward` records. -/
def car_forward_events (s : Car) : List Event :=
  car_stop_events ++
    [Event.hi_pwm_start PwmPort.HI_PWM_PORT_PWM4 s.SPEED_FORWARD 8000,
     Event.hi_pwm_start PwmPort.HI_PWM_PORT_PWM1 s.SPEED_FORWARD 8000]

/-- What `car_backward` records. -/
def car_backward_events (s : Car) : List Event :=
  car_stop_events ++
    [Event.hi_pwm_start PwmPort.HI_PWM_PORT_PWM3 s.SPEED_BACKWARD 8000,
     Event.hi_pwm_start PwmPort.HI_PWM_PORT_PWM0 s.SPEED_BACKWARD 8000]

/-- What `car_right` records. -/
def car_right_events (s : Car) : List Event :=
  car_stop_events ++
    [Event.hi_pwm_start PwmPort.HI_PWM_PORT_PWM0 s.SPEED_FORWARD 8000,
     Event.hi_pwm_start PwmPort.HI_PWM_PORT_PWM4 s.SPEED_TURN 8000]

/-- What `car_left` records. -/
def car_left_events (s : Car) : List Event :=
  car_stop_events ++
    [Event.hi_pwm_start PwmPort.HI_PWM_PORT_PWM3 s.SPEED_FORWARD 8000,
     Event.hi_pwm_start PwmPort.HI_PWM_PORT_PWM1 s.SPEED_TURN 8000]

/-- What the direction scout records. -/
def scout_events : List Event :=
  [Event.engine_turn_left, Event.hi_sleep 100, Event.GetDistance, Event.hi_sleep 100,
   Event.regress_middle, Event.hi_sleep 100,
   Event.engine_turn_right, Event.hi_sleep 100, Event.GetDistance, Event.hi_sleep 100,
   Event.regress_middle]

/-- A command to a drive-motor PWM channel. -/
def Event.is_drive : Event → Bool
  | Event.hi_pwm_stop _ => true
  | Event.hi_pwm_start _ _ _ => true
  | _ => false

/-- A command to the steering servo of the ranging sensor. -/
def Event.is_steering : Event → Bool
  | Event.engine_turn_left => true
  | Event.engine_turn_right => true
  | Event.regress_middle => true
  | _ => false

/-! ## `robot_control.c`: avoidance loop and dispatch loop -/

/-- The function `pwm_init` of `robot_l9110s.c`: twelve configuration calls to the platform
(pin initialisation, pin function `PWMn_OUT`, port initialisation).  None of them starts or
stops a channel, so the channel state is untouched. -/
def pwm_init (s : Car) : Car :=
  let s := s.log (Event.IoTGpioInit 0)
  let s := s.log (Event.IoTGpioInit 1)
  let s := s.log (Event.IoTGpioInit 9)
  let s := s.log (Event.IoTGpioInit 10)
  let s := s.log (Event.hi_io_set_func 0 PwmPort.HI_PWM_PORT_PWM3)
  let s := s.log (Event.hi_io_set_func 9 PwmPort.HI_PWM_PORT_PWM0)
  let s := s.log (Event.hi_io_set_func 1 PwmPort.HI_PWM_PORT_PWM4)
  let s := s.log (Event.hi_io_set_func 10 PwmPort.HI_PWM_PORT_PWM1)
  let s := s.log (Event.hi_pwm_init PwmPort.HI_PWM_PORT_PWM3)
  let s := s.log (Event.hi_pwm_init PwmPort.HI_PWM_PORT_PWM4)
  let s := s.log (Event.hi_pwm_init PwmPort.HI_PWM_PORT_PWM0)
  s.log (Event.hi_pwm_init PwmPort.HI_PWM_PORT_PWM1)

/-- The `while (1)` loop of `car_mode_control_func`, at iteration `i`.  The global
`g_car_status` is written by the interrupt handler while the loop runs: `observed` lists
the values the loop reads at the top of its successive iterations, and each read value is
put into the state.  `readings i` holds what `GetDistance` returns in iteration `i`: the
front distance and the two distances the scout measures if it runs.  The result is `none`
when the observations end while the loop is still running. -/
def car_mode_control_loop (readings : Nat → ℚ × ℚ × ℚ) : List CarStatus → Nat → Car → Option Car
  | [], _, _ => none
  | m :: ms, i, s =>
    let s := { s with g_car_status := m }
    if s.g_car_status ≠ CarStatus.CAR_OBSTACLE_AVOIDANCE_STATUS then
      some (regress_middle s)
    else
      let (m_distance, s) := GetDistance (readings i).1 s
      let s := car_where_to_go m_distance (readings i).2.1 (readings i).2.2 s
      let s := hi_sleep 20 s
      car_mode_control_loop readings ms (i + 1) s

/-- The function `car_mode_control_func`. -/
def car_mode_control_func (readings : Nat → ℚ × ℚ × ℚ) (observed : List CarStatus)
    (s : Car) : Option Car :=
  let s := pwm_init s
  let s := regress_middle s
  car_mode_control_loop readings observed 0 s

/-- The platform call `IoTWatchDogDisable()`. -/
def IoTWatchDogDisable (s : Car) : Car :=
  s.log Event.IoTWatchDogDisable

/-- The platform call `osDelay(ticks)`. -/
def osDelay (ticks : Nat) (s : Car) : Car :=
  s.log (Event.osDelay ticks)

/-- One pass through the body of the `while (1)` loop of `RobotCarTestTask`.  The
line-follow collaborator `trace_module` (its source is missing) is an argument; `readings`
and `observed` are the inputs of `car_mode_control_func` if it runs. -/
def RobotCarTestTask_tick (trace_module : Car → Car) (readings : Nat → ℚ × ℚ × ℚ)
    (observed : List CarStatus) (s : Car) : Option Car :=
  let after_switch :=
    match s.g_car_status with
    | CarStatus.CAR_STOP_STATUS => some (car_stop s)
    | CarStatus.CAR_OBSTACLE_AVOIDANCE_STATUS => car_mode_control_func readings observed s
    | CarStatus.CAR_TRACE_STATUS => some (trace_module s)
    | CarStatus.CAR_CONTROL_STATUS => some s
  after_switch.map (fun s => osDelay 20 (IoTWatchDogDisable s))

/-- A sequence of sampling passes of `get_gpio5_voltage`, each given by the outcomes of its
reads and the tick the mode handler would read, handled in order. -/
def input_events (KEY_INTERRUPT_PROTECT_TIME : Nat) (s : Car)
    (passes : List ((Nat → Option Nat) × Nat)) : Car :=
  passes.foldl (fun st p => get_gpio5_voltage KEY_INTERRUPT_PROTECT_TIME p.1 p.2 st) s

/-- One full iteration of the avoidance loop in the words of the specification: one
ranging read, then `car_where_to_go` on that reading, then a delay of 20 ms. -/
def full_iteration (r : ℚ × ℚ × ℚ) (s : Car) : Car :=
  hi_sleep 20 (car_where_to_go r.1 r.2.1 r.2.2 (GetDistance r.1 s).2)

/-- The full iterations number `i`, `i + 1`, ... up to `k` of them, one after the other. -/
def full_iterations (readings : Nat → ℚ × ℚ × ℚ) : Nat → Nat → Car → Car
  | 0, _, s => s
  | k + 1, i, s => full_iterations readings k (i + 1) (full_iteration (readings i) s)

/-- The events a step has appended to the record, from the state before and after it. -/
def appended (before after : Car) : List Event :=
  after.trace.drop before.trace.length

/-- The duties given to the `hi_pwm_start` calls of a record, in call order. -/
def started_duties : List Event → List Nat
  | [] => []
  | Event.hi_pwm_start _ d _ :: es => d :: started_duties es
  | _ :: es => started_duties es

/-- What `pwm_init` records. -/
def pwm_init_events : List Event :=
  [Event.IoTGpioInit 0, Event.IoTGpioInit 1, Event.IoTGpioInit 9, Event.IoTGpioInit 10,
   Event.hi_io_set_func 0 PwmPort.HI_PWM_PORT_PWM3,
   Event.hi_io_set_func 9 PwmPort.HI_PWM_PORT_PWM0,
   Event.hi_io_set_func 1 PwmPort.HI_PWM_PORT_PWM4,
   Event.hi_io_set_func 10 PwmPort.HI_PWM_PORT_PWM1,
   Event.hi_pwm_init PwmPort.HI_PWM_PORT_PWM3, Event.hi_pwm_init PwmPort.HI_PWM_PORT_PWM4,
   Event.hi_pwm_init PwmPort.HI_PWM_PORT_PWM0, Event.hi_pwm_init PwmPort.HI_PWM_PORT_PWM1]

/-! ## Auxiliary lemmas -/

theorem isr_accept (P now : Nat) (s : Car)
    (h : P ≤ sub_u32 (now % 4294967296) s.g_gpio5_tick) :
    gpio5_isr_func_mode P now s =
      { s with g_gpio5_tick := now % 4294967296, g_car_status := cycle_next s.g_car_status } := by
  have h' : ¬ sub_u32 (now % 4294967296) s.g_gpio5_tick < P := Nat.not_lt.mpr h
  unfold gpio5_isr_func_mode
  simp only [h', if_false]
  cases hm : s.g_car_status <;> simp [hm, cycle_next]

theorem isr_drop (P now : Nat) (s : Car)
    (h : sub_u32 (now % 4294967296) s.g_gpio5_tick < P) :
    gpio5_isr_func_mode P now s = s := by
  unfold gpio5_isr_func_mode
  simp only [h, if_true]

theorem cycle_next_four (m : CarStatus) : cycle_next^[4] m = m := by
  cases m <;> rfl

theorem mode_events_spaced (P : Nat) (ticks : List Nat) :
    ∀ s : Car, spaced P s.g_gpio5_tick ticks →
      (mode_events P s ticks).g_car_status = cycle_next^[ticks.length] s.g_car_status := by
  induction ticks with
  | nil => intro s _; rfl
  | cons t ts ih =>
    intro s h
    obtain ⟨h1, h2⟩ := h
    have hstep := isr_accept P t s h1
    have := ih (gpio5_isr_func_mode P t s) (by rw [hstep]; exact h2)
    simp only [mode_events, List.foldl_cons, List.length_cons, Function.iterate_succ,
      Function.comp_apply] at this ⊢
    rw [this, hstep]

theorem cycle_next_ne (m : CarStatus) : cycle_next m ≠ m := by
  cases m <;> decide

theorem sub_u32_mod_right (a b : Nat) : sub_u32 a (b % 4294967296) = sub_u32 a b := by
  unfold sub_u32
  rw [Nat.mod_mod]

theorem sub_u32_of_le (L t : Nat) (h : L ≤ t) :
    sub_u32 (t % 4294967296) (L % 4294967296) = (t - L) % 4294967296 := by
  unfold sub_u32
  omega

theorem accepted_events_chain (P : Nat) (ticks : List Nat) :
    ∀ s : Car, List.Chain (fun prev cur => P ≤ sub_u32 (cur % 4294967296) prev)
      s.g_gpio5_tick (accepted_events P s ticks) := by
  induction ticks with
  | nil => intro s; exact List.Chain.nil
  | cons t ts ih =>
    intro s
    by_cases hg : sub_u32 (t % 4294967296) s.g_gpio5_tick < P
    · have hstep := isr_drop P t s hg
      simp only [accepted_events, hstep, ne_eq, not_true_eq_false, if_false]
      exact ih s
    · have hge : P ≤ sub_u32 (t % 4294967296) s.g_gpio5_tick := Nat.le_of_not_lt hg
      have hstep := isr_accept P t s hge
      have hne : (gpio5_isr_func_mode P t s).g_car_status ≠ s.g_car_status := by
        rw [hstep]; exact cycle_next_ne _
      simp only [accepted_events, hne, ne_eq, not_false_eq_true, if_true]
      refine List.Chain.cons hge ?_
      have := ih (gpio5_isr_func_mode P t s)
      rw [hstep] at this ⊢
      simp only at this
      cases hl : accepted_events P
          { s with g_gpio5_tick := t % 4294967296, g_car_status := cycle_next s.g_car_status } ts with
      | nil => exact List.Chain.nil
      | cons b l =>
        rw [hl] at this
        cases this with
        | cons hb hrest =>
          rw [sub_u32_mod_right] at hb
          exact List.Chain.cons hb hrest

theorem chain_le_of_le {L t : Nat} {ts : List Nat} (hLt : L ≤ t)
    (h : List.Chain (fun a b => a ≤ b) t ts) : List.Chain (fun a b => a ≤ b) L ts := by
  cases h with
  | nil => exact List.Chain.nil
  | cons hb hrest => exact List.Chain.cons (Nat.le_trans hLt hb) hrest

theorem accepted_events_apart (P : Nat) (times : List Nat) :
    ∀ (L : Nat) (s : Car), s.g_gpio5_tick = L % 4294967296 →
      List.Chain (fun a b => a ≤ b) L times →
      (∀ x ∈ accepted_events P s times, L + P ≤ x)
        ∧ List.Pairwise (fun a b => a + P ≤ b) (accepted_events P s times) := by
  induction times with
  | nil =>
    intro L s _ _
    simp [accepted_events]
  | cons t ts ih =>
    intro L s hs hch
    cases hch with
    | cons hLt hrest =>
      by_cases hg : sub_u32 (t % 4294967296) s.g_gpio5_tick < P
      · have hstep := isr_drop P t s hg
        simp only [accepted_events, hstep, ne_eq, not_true_eq_false, if_false]
        exact ih L s hs (chain_le_of_le hLt hrest)
      · have hge : P ≤ sub_u32 (t % 4294967296) s.g_gpio5_tick := Nat.le_of_not_lt hg
        have hstep := isr_accept P t s hge
        have hne : (gpio5_isr_func_mode P t s).g_car_status ≠ s.g_car_status := by
          rw [hstep]; exact cycle_next_ne _
        have hLP : L + P ≤ t := by
          rw [hs, sub_u32_of_le L t hLt] at hge
          have := Nat.mod_le (t - L) 4294967296
          omega
        simp only [accepted_events, hne, ne_eq, not_false_eq_true, if_true]
        obtain ⟨h1, h2⟩ := ih t (gpio5_isr_func_mode P t s) (by rw [hstep]) hrest
        refine ⟨?_, List.pairwise_cons.mpr ⟨h1, h2⟩⟩
        intro x hx
        rcases List.mem_cons.mp hx with rfl | hx
        · exact hLP
        · have := h1 x hx
          omega

theorem speed_adjust_forward (s : Car) :
    (speed_adjust s).SPEED_FORWARD
      = if s.SPEED_FORWARD ≤ 7000 then s.SPEED_FORWARD + 1000 else 4000 := by
  unfold speed_adjust
  split
  · next h => simp only; omega
  · rfl

theorem speed_adjust_iterate_from_floor (s : Car) (h : s.SPEED_FORWARD = 4000) (n : Nat) :
    (speed_adjust^[n] s).SPEED_FORWARD = 4000 + 1000 * (n % 5) := by
  induction n with
  | zero => simpa using h
  | succ k ih =>
    rw [Function.iterate_succ_apply', speed_adjust_forward, ih]
    split <;> omega

theorem code_voltage_lt_iff (a b : Nat) : code_voltage a < code_voltage b ↔ a < b := by
  unfold code_voltage
  constructor
  · intro h
    have h' : (a : ℚ) < (b : ℚ) := by
      by_contra hc
      have hba : (b : ℚ) ≤ (a : ℚ) := not_lt.mp hc
      have : (b : ℚ) * 1.8 * 4 / 4096.0 ≤ (a : ℚ) * 1.8 * 4 / 4096.0 := by
        norm_num
        linarith
      linarith
    exact_mod_cast h'
  · intro h
    have h' : (a : ℚ) < (b : ℚ) := by exact_mod_cast h
    norm_num
    linarith

theorem vlt_max_loop_from (buf : List Nat) :
    ∀ a : Nat,
      buf.foldl
          (fun vlt_max vlt => if code_voltage vlt > vlt_max then code_voltage vlt else vlt_max)
          (code_voltage a)
        = code_voltage (buf.foldl max a) := by
  induction buf with
  | nil => intro a; rfl
  | cons x xs ih =>
    intro a
    simp only [List.foldl_cons, gt_iff_lt, code_voltage_lt_iff]
    by_cases h : a < x
    · rw [if_pos h, ih x, max_eq_right (Nat.le_of_lt h)]
    · rw [if_neg h, ih a, max_eq_left (Nat.le_of_not_lt h)]

theorem vlt_max_loop_eq (buf : List Nat) :
    vlt_max_loop buf = code_voltage (buf.foldl max 0) := by
  have h0 : (0 : ℚ) = code_voltage 0 := by simp [code_voltage]
  unfold vlt_max_loop
  rw [h0]
  exact vlt_max_loop_from buf 0

theorem mode_band_iff (m : Nat) :
    (code_voltage m > 0.01 ∧ code_voltage m < 0.3) ↔ (6 ≤ m ∧ m ≤ 170) := by
  unfold code_voltage
  constructor
  · rintro ⟨h1, h2⟩
    have h1' : (5 : ℚ) < (m : ℚ) := by norm_num at h1; linarith
    have h2' : (m : ℚ) < 171 := by norm_num at h2; linarith
    have hlo : 5 < m := by exact_mod_cast h1'
    have hhi : m < 171 := by exact_mod_cast h2'
    omega
  · rintro ⟨h1, h2⟩
    have h1' : (6 : ℚ) ≤ (m : ℚ) := by exact_mod_cast h1
    have h2' : (m : ℚ) ≤ 170 := by exact_mod_cast h2
    constructor
    · norm_num; linarith
    · norm_num; linarith

theorem speed_band_iff (m : Nat) :
    (code_voltage m > 0.6 ∧ code_voltage m < 1.5) ↔ (342 ≤ m ∧ m ≤ 853) := by
  unfold code_voltage
  constructor
  · rintro ⟨h1, h2⟩
    have h1' : (341 : ℚ) < (m : ℚ) := by norm_num at h1; linarith
    have h2' : (m : ℚ) < 854 := by norm_num at h2; linarith
    have hlo : 341 < m := by exact_mod_cast h1'
    have hhi : m < 854 := by exact_mod_cast h2'
    omega
  · rintro ⟨h1, h2⟩
    have h1' : (342 : ℚ) ≤ (m : ℚ) := by exact_mod_cast h1
    have h2' : (m : ℚ) ≤ 853 := by exact_mod_cast h2
    constructor
    · norm_num; linarith
    · norm_num; linarith

theorem adc_sample_loop_ok (hi_adc_read : Nat → Option Nat) (rest : List Nat) :
    ∀ (done pad : List Nat) (s : Car), s.g_gpio5_adc_buf = done ++ pad →
      pad.length = rest.length →
      (∀ j, j < rest.length → hi_adc_read (done.length + j) = rest[j]?) →
      adc_sample_loop hi_adc_read rest.length done.length s
        = ({ s with
              g_gpio5_adc_buf := done ++ rest
              trace := s.trace ++ List.replicate rest.length Event.hi_adc_read }, true) := by
  induction rest with
  | nil =>
    intro done pad s hbuf hpad _
    have hp : pad = [] := List.length_eq_zero.mp hpad
    cases s
    simp only [hp, List.append_nil] at hbuf
    simp [adc_sample_loop, hbuf]
  | cons x xs ih =>
    intro done pad s hbuf hpad hread
    cases pad with
    | nil => simp at hpad
    | cons p ps =>
      have h0 : hi_adc_read done.length = some x := by
        have := hread 0 (by simp)
        simpa using this
      have hlen : ps.length = xs.length := by simpa using hpad
      have hnext : ∀ j, j < xs.length →
          hi_adc_read ((done ++ [x]).length + j) = xs[j]? := by
        intro j hj
        have := hread (j + 1) (by simp; omega)
        simp only [List.length_append, List.length_singleton]
        rw [show done.length + 1 + j = done.length + (j + 1) by omega, this]
        simp
      have hstep := ih (done ++ [x]) ps
        { s.log Event.hi_adc_read with
          g_gpio5_adc_buf := s.g_gpio5_adc_buf.set done.length x }
        (by simp [hbuf]) hlen hnext
      simp only [List.length_append, List.length_singleton] at hstep
      simp only [List.length_cons, adc_sample_loop, h0]
      rw [hstep]
      simp [Car.log, List.replicate_succ]

theorem adc_sample_loop_fail (hi_adc_read : Nat → Option Nat) (k : Nat) :
    ∀ (n i : Nat) (s : Car), k < n → hi_adc_read (i + k) = none →
      (∀ j, j < k → hi_adc_read (i + j) ≠ none) →
      ∃ buf : List Nat,
        adc_sample_loop hi_adc_read n i s
          = ({ s with
                g_gpio5_adc_buf := buf
                trace := s.trace ++ List.replicate (k + 1) Event.hi_adc_read }, false) := by
  induction k with
  | zero =>
    intro n i s hn hfail _
    cases n with
    | zero => omega
    | succ n =>
      refine ⟨s.g_gpio5_adc_buf, ?_⟩
      have h0 : hi_adc_read i = none := by simpa using hfail
      simp [adc_sample_loop, h0, Car.log]
  | succ k ih =>
    intro n i s hn hfail hprev
    cases n with
    | zero => omega
    | succ n =>
      have h0 := hprev 0 (by omega)
      rw [Nat.add_zero] at h0
      obtain ⟨data, hdata⟩ := Option.ne_none_iff_exists'.mp h0
      obtain ⟨buf, hbuf⟩ := ih n (i + 1)
        { s.log Event.hi_adc_read with g_gpio5_adc_buf := s.g_gpio5_adc_buf.set i data }
        (by omega) (by rw [show i + 1 + k = i + (k + 1) by omega]; exact hfail)
        (fun j hj => by
          rw [show i + 1 + j = i + (j + 1) by omega]; exact hprev (j + 1) (by omega))
      refine ⟨buf, ?_⟩
      simp only [adc_sample_loop, hdata]
      rw [hbuf]
      simp [Car.log, List.replicate_succ]

theorem first_failed_read (hi_adc_read : Nat → Option Nat) (k : Nat)
    (hfail : hi_adc_read k = none) :
    ∃ k0, k0 ≤ k ∧ hi_adc_read k0 = none ∧ ∀ j, j < k0 → hi_adc_read j ≠ none := by
  induction k using Nat.strong_induction_on with
  | _ k ih =>
    by_cases h : ∀ j, j < k → hi_adc_read j ≠ none
    · exact ⟨k, Nat.le_refl k, hfail, h⟩
    · push_neg at h
      obtain ⟨j, hj, hjn⟩ := h
      obtain ⟨k0, hk0, h1, h2⟩ := ih j hj hjn
      exact ⟨k0, by omega, h1, h2⟩

theorem get_gpio5_voltage_fail (P : Nat) (hi_adc_read : Nat → Option Nat) (now : Nat)
    (s : Car) (k : Nat) (hk : k < 20) (hfail : hi_adc_read k = none)
    (hprev : ∀ j, j < k → hi_adc_read j ≠ none) :
    ∃ buf : List Nat,
      get_gpio5_voltage P hi_adc_read now s
        = { s with
            g_gpio5_adc_buf := buf
            trace := s.trace ++ List.replicate (k + 1) Event.hi_adc_read } := by
  obtain ⟨buf, hbuf⟩ := adc_sample_loop_fail hi_adc_read k 20 0
    { s with g_gpio5_adc_buf := List.replicate ADC_TEST_LENGTH 0 } hk
    (by simpa using hfail) (fun j hj => by simpa using hprev j hj)
  refine ⟨buf, ?_⟩
  simp only [get_gpio5_voltage, ADC_TEST_LENGTH] at hbuf ⊢
  rw [hbuf]

theorem get_gpio5_voltage_ok (P : Nat) (hi_adc_read : Nat → Option Nat) (now : Nat)
    (s : Car) (window : List Nat) (hlen : window.length = 20)
    (hread : ∀ i, i < 20 → hi_adc_read i = window[i]?) :
    get_gpio5_voltage P hi_adc_read now s
      = if code_voltage (window.foldl max 0) > 0.01 ∧ code_voltage (window.foldl max 0) < 0.3
        then gpio5_isr_func_mode P now (sampled s window)
        else if code_voltage (window.foldl max 0) > 0.6
            ∧ code_voltage (window.foldl max 0) < 1.5
        then speed_adjust (sampled s window)
        else sampled s window := by
  have h := adc_sample_loop_ok hi_adc_read window [] (List.replicate 20 0)
    { s with g_gpio5_adc_buf := List.replicate ADC_TEST_LENGTH 0 } rfl
    (by simp [hlen]) (by intro j hj; rw [hlen] at hj; simpa using hread j hj)
  simp only [hlen, List.length_nil, List.nil_append, ADC_TEST_LENGTH] at h
  simp only [get_gpio5_voltage, ADC_TEST_LENGTH]
  rw [h]
  simp only [vlt_max_loop_eq, sampled, hlen]

theorem isr_sampled (P now : Nat) (s : Car) (window : List Nat) :
    gpio5_isr_func_mode P now (sampled s window)
      = sampled (gpio5_isr_func_mode P now s) window := by
  by_cases hg : sub_u32 (now % 4294967296) s.g_gpio5_tick < P
  · rw [isr_drop P now s hg, isr_drop P now (sampled s window) hg]
  · rw [isr_accept P now s (Nat.le_of_not_lt hg),
      isr_accept P now (sampled s window) (Nat.le_of_not_lt hg)]
    rfl

theorem speed_adjust_sampled (s : Car) (window : List Nat) :
    speed_adjust (sampled s window) = sampled (speed_adjust s) window := by
  unfold speed_adjust
  by_cases h : s.SPEED_FORWARD ≤ 7000
  · have h' : (sampled s window).SPEED_FORWARD ≤ 7000 := h
    rw [if_pos h, if_pos h']
    rfl
  · have h' : ¬ (sampled s window).SPEED_FORWARD ≤ 7000 := h
    rw [if_neg h, if_neg h']
    rfl

theorem get_gpio5_voltage_ok_sampled (P : Nat) (hi_adc_read : Nat → Option Nat) (now : Nat)
    (s : Car) (window : List Nat) (hlen : window.length = 20)
    (hread : ∀ i, i < 20 → hi_adc_read i = window[i]?) :
    get_gpio5_voltage P hi_adc_read now s
      = sampled
          (if 6 ≤ window.foldl max 0 ∧ window.foldl max 0 ≤ 170 then
            gpio5_isr_func_mode P now s
          else if 342 ≤ window.foldl max 0 ∧ window.foldl max 0 ≤ 853 then
            speed_adjust s
          else s) window := by
  rw [get_gpio5_voltage_ok P hi_adc_read now s window hlen hread]
  simp only [mode_band_iff, speed_band_iff, isr_sampled, speed_adjust_sampled]
  split
  · rfl
  · split <;> rfl

theorem car_stop_eq (s : Car) :
    car_stop s = { s with pwm := PwmChannels.off, trace := s.trace ++ car_stop_events } := by
  simp [car_stop, pwm_stop, hi_pwm_stop, PwmChannels.set, PwmChannels.off, car_stop_events]

theorem car_forward_eq (s : Car) :
    car_forward s =
      { s with
        pwm := { pwm0 := none, pwm1 := some (s.SPEED_FORWARD, 8000), pwm3 := none,
                 pwm4 := some (s.SPEED_FORWARD, 8000) }
        trace := s.trace ++ car_forward_events s } := by
  simp [car_forward, pwm_stop, hi_pwm_stop, hi_pwm_start, PwmChannels.set, PWM_DUTY_MAX,
    car_forward_events, car_stop_events]

theorem car_backward_eq (s : Car) :
    car_backward s =
      { s with
        pwm := { pwm0 := some (s.SPEED_BACKWARD, 8000), pwm1 := none,
                 pwm3 := some (s.SPEED_BACKWARD, 8000), pwm4 := none }
        trace := s.trace ++ car_backward_events s } := by
  simp [car_backward, pwm_stop, hi_pwm_stop, hi_pwm_start, PwmChannels.set, PWM_DUTY_MAX,
    car_backward_events, car_stop_events]

theorem car_right_eq (s : Car) :
    car_right s =
      { s with
        pwm := { pwm0 := some (s.SPEED_FORWARD, 8000), pwm1 := none, pwm3 := none,
                 pwm4 := some (s.SPEED_TURN, 8000) }
        trace := s.trace ++ car_right_events s } := by
  simp [car_right, pwm_stop, hi_pwm_stop, hi_pwm_start, PwmChannels.set, PWM_DUTY_MAX,
    car_right_events, car_stop_events]

theorem car_left_eq (s : Car) :
    car_left s =
      { s with
        pwm := { pwm0 := none, pwm1 := some (s.SPEED_TURN, 8000),
                 pwm3 := some (s.SPEED_FORWARD, 8000), pwm4 := none }
        trace := s.trace ++ car_left_events s } := by
  simp [car_left, pwm_stop, hi_pwm_stop, hi_pwm_start, PwmChannels.set, PWM_DUTY_MAX,
    car_left_events, car_stop_events]

theorem engine_go_where_eq (l r : ℚ) (s : Car) :
    engine_go_where l r s
      = (if l > r then TurnDir.CAR_TURN_LEFT else TurnDir.CAR_TURN_RIGHT,
         { s with trace := s.trace ++ scout_events }) := by
  unfold engine_go_where
  by_cases h : l > r <;>
    simp [h, hi_sleep, engine_turn_left, engine_turn_right, regress_middle, GetDistance,
      Car.log, scout_events]

theorem car_where_to_go_near (d l r : ℚ) (s : Car)
    (h : d < DISTANCE_BETWEEN_CAR_AND_OBSTACLE) :
    car_where_to_go d l r s =
      { s with
        MOVING_STATUS := 0
        pwm := PwmChannels.off
        trace := s.trace ++ car_stop_events
          ++ [Event.MOVING_STATUS 0, Event.hi_sleep 500]
          ++ car_backward_events s
          ++ [Event.MOVING_STATUS 5, Event.hi_sleep 500]
          ++ car_stop_events
          ++ [Event.MOVING_STATUS 0]
          ++ scout_events
          ++ (if l > r then car_left_events s ++ [Event.MOVING_STATUS 2, Event.hi_sleep 750]
              else car_right_events s ++ [Event.MOVING_STATUS 1, Event.hi_sleep 750])
          ++ car_stop_events
          ++ [Event.MOVING_STATUS 0] } := by
  unfold car_where_to_go
  rw [if_pos h]
  by_cases hlr : l > r
  · simp [hlr, engine_go_where_eq, car_stop_eq, car_backward_eq, car_left_eq,
      set_MOVING_STATUS, hi_sleep, Car.log, car_backward_events, car_left_events]
  · simp [hlr, engine_go_where_eq, car_stop_eq, car_backward_eq, car_right_eq,
      set_MOVING_STATUS, hi_sleep, Car.log, car_backward_events, car_right_events]

theorem car_where_to_go_far (d l r : ℚ) (s : Car)
    (h : ¬ d < DISTANCE_BETWEEN_CAR_AND_OBSTACLE) :
    car_where_to_go d l r s =
      { s with
        MOVING_STATUS := 3
        pwm := { pwm0 := none, pwm1 := some (s.SPEED_FORWARD, 8000), pwm3 := none,
                 pwm4 := some (s.SPEED_FORWARD, 8000) }
        trace := s.trace ++ car_forward_events s ++ [Event.MOVING_STATUS 3] } := by
  unfold car_where_to_go
  rw [if_neg h]
  simp [car_forward_eq, set_MOVING_STATUS, Car.log, car_forward_events]

theorem speed_adjust_iterate_startup (n : Nat) :
    (speed_adjust^[n] (startup 0)).SPEED_TURN = 6000
      ∧ (speed_adjust^[n] (startup 0)).SPEED_BACKWARD = 5000
      ∧ 4000 ≤ (speed_adjust^[n] (startup 0)).SPEED_FORWARD
      ∧ (speed_adjust^[n] (startup 0)).SPEED_FORWARD ≤ 8000
      ∧ (speed_adjust^[n] (startup 0)).SPEED_FORWARD % 1000 = 0 := by
  induction n with
  | zero => simp [startup]
  | succ k ih =>
    obtain ⟨h1, h2, h3, h4, h5⟩ := ih
    rw [Function.iterate_succ_apply']
    refine ⟨?_, ?_, ?_, ?_, ?_⟩
    · unfold speed_adjust; split <;> exact h1
    · unfold speed_adjust; split <;> exact h2
    · rw [speed_adjust_forward]; split <;> omega
    · rw [speed_adjust_forward]; split <;> omega
    · rw [speed_adjust_forward]; split <;> omega

theorem reachable_profile_bounds (s : Car) (h : reachable_profile s) :
    s.SPEED_TURN = 6000 ∧ s.SPEED_BACKWARD = 5000
      ∧ 4000 ≤ s.SPEED_FORWARD ∧ s.SPEED_FORWARD ≤ 8000 ∧ s.SPEED_FORWARD % 1000 = 0 := by
  obtain ⟨n, hf, ht, hb⟩ := h
  rw [hf, ht, hb]
  exact speed_adjust_iterate_startup n

theorem code_voltage_margin (m : Nat) :
    (code_voltage m + 1 / 2000 ≤ 0.01 ∨ 0.01 + 1 / 2000 ≤ code_voltage m)
      ∧ (code_voltage m + 1 / 2000 ≤ 0.3 ∨ 0.3 + 1 / 2000 ≤ code_voltage m)
      ∧ (code_voltage m + 1 / 2000 ≤ 0.6 ∨ 0.6 + 1 / 2000 ≤ code_voltage m)
      ∧ (code_voltage m + 1 / 2000 ≤ 1.5 ∨ 1.5 + 1 / 2000 ≤ code_voltage m) := by
  unfold code_voltage
  refine ⟨?_, ?_, ?_, ?_⟩
  · rcases Nat.lt_or_ge m 6 with h | h
    · left
      have : (m : ℚ) ≤ 5 := by exact_mod_cast Nat.lt_succ_iff.mp h
      norm_num; linarith
    · right
      have : (6 : ℚ) ≤ (m : ℚ) := by exact_mod_cast h
      norm_num; linarith
  · rcases Nat.lt_or_ge m 171 with h | h
    · left
      have : (m : ℚ) ≤ 170 := by exact_mod_cast Nat.lt_succ_iff.mp h
      norm_num; linarith
    · right
      have : (171 : ℚ) ≤ (m : ℚ) := by exact_mod_cast h
      norm_num; linarith
  · rcases Nat.lt_or_ge m 342 with h | h
    · left
      have : (m : ℚ) ≤ 341 := by exact_mod_cast Nat.lt_succ_iff.mp h
      norm_num; linarith
    · right
      have : (342 : ℚ) ≤ (m : ℚ) := by exact_mod_cast h
      norm_num; linarith
  · rcases Nat.lt_or_ge m 854 with h | h
    · left
      have : (m : ℚ) ≤ 853 := by exact_mod_cast Nat.lt_succ_iff.mp h
      norm_num; linarith
    · right
      have : (854 : ℚ) ≤ (m : ℚ) := by exact_mod_cast h
      norm_num; linarith

theorem isr_speeds (P now : Nat) (s : Car) :
    (gpio5_isr_func_mode P now s).SPEED_FORWARD = s.SPEED_FORWARD
      ∧ (gpio5_isr_func_mode P now s).SPEED_TURN = s.SPEED_TURN
      ∧ (gpio5_isr_func_mode P now s).SPEED_BACKWARD = s.SPEED_BACKWARD := by
  by_cases hg : sub_u32 (now % 4294967296) s.g_gpio5_tick < P
  · rw [isr_drop P now s hg]
    exact ⟨rfl, rfl, rfl⟩
  · rw [isr_accept P now s (Nat.le_of_not_lt hg)]
    exact ⟨rfl, rfl, rfl⟩

theorem speed_adjust_frame (s : Car) :
    (speed_adjust s).SPEED_TURN = s.SPEED_TURN
      ∧ (speed_adjust s).SPEED_BACKWARD = s.SPEED_BACKWARD
      ∧ (speed_adjust s).g_car_status = s.g_car_status
      ∧ (speed_adjust s).g_gpio5_tick = s.g_gpio5_tick := by
  unfold speed_adjust
  split <;> exact ⟨rfl, rfl, rfl, rfl⟩

theorem speed_adjust_changes (s : Car) : (speed_adjust s).SPEED_FORWARD ≠ s.SPEED_FORWARD := by
  rw [speed_adjust_forward]
  split <;> omega

theorem adc_sample_loop_frame (hi_adc_read : Nat → Option Nat) (n : Nat) :
    ∀ (i : Nat) (s : Car),
      (adc_sample_loop hi_adc_read n i s).1.SPEED_FORWARD = s.SPEED_FORWARD
        ∧ (adc_sample_loop hi_adc_read n i s).1.SPEED_TURN = s.SPEED_TURN
        ∧ (adc_sample_loop hi_adc_read n i s).1.SPEED_BACKWARD = s.SPEED_BACKWARD := by
  induction n with
  | zero => intro i s; exact ⟨rfl, rfl, rfl⟩
  | succ n ih =>
    intro i s
    cases h : hi_adc_read i with
    | none => simp only [adc_sample_loop, h]; exact ⟨rfl, rfl, rfl⟩
    | some data =>
      simp only [adc_sample_loop, h]
      exact ih (i + 1) _

theorem get_gpio5_voltage_speeds (P : Nat) (hi_adc_read : Nat → Option Nat) (now : Nat)
    (s : Car) :
    (get_gpio5_voltage P hi_adc_read now s).SPEED_TURN = s.SPEED_TURN
      ∧ (get_gpio5_voltage P hi_adc_read now s).SPEED_BACKWARD = s.SPEED_BACKWARD
      ∧ ((get_gpio5_voltage P hi_adc_read now s).SPEED_FORWARD = s.SPEED_FORWARD
        ∨ (get_gpio5_voltage P hi_adc_read now s).SPEED_FORWARD
            = (speed_adjust s).SPEED_FORWARD) := by
  have hframe := adc_sample_loop_frame hi_adc_read ADC_TEST_LENGTH 0
    { s with g_gpio5_adc_buf := List.replicate ADC_TEST_LENGTH 0 }
  simp only [get_gpio5_voltage]
  rcases hr : adc_sample_loop hi_adc_read ADC_TEST_LENGTH 0
    { s with g_gpio5_adc_buf := List.replicate ADC_TEST_LENGTH 0 } with ⟨s1, flag⟩
  rw [hr] at hframe
  obtain ⟨hf, ht, hb⟩ := hframe
  simp only at hf ht hb
  cases flag with
  | false => exact ⟨ht, hb, Or.inl hf⟩
  | true =>
    simp only
    by_cases hm : vlt_max_loop s1.g_gpio5_adc_buf > 0.01 ∧ vlt_max_loop s1.g_gpio5_adc_buf < 0.3
    · rw [if_pos hm]
      obtain ⟨h1, h2, h3⟩ := isr_speeds P now s1
      exact ⟨h2.trans ht, h3.trans hb, Or.inl (h1.trans hf)⟩
    · rw [if_neg hm]
      by_cases hsp : vlt_max_loop s1.g_gpio5_adc_buf > 0.6
          ∧ vlt_max_loop s1.g_gpio5_adc_buf < 1.5
      · rw [if_pos hsp]
        obtain ⟨h1, h2, _, _⟩ := speed_adjust_frame s1
        refine ⟨h1.trans ht, h2.trans hb, Or.inr ?_⟩
        rw [speed_adjust_forward, speed_adjust_forward, hf]
      · rw [if_neg hsp]
        exact ⟨ht, hb, Or.inl hf⟩

theorem input_events_profile (P : Nat) (passes : List ((Nat → Option Nat) × Nat)) :
    ∀ s : Car, s.SPEED_TURN = 6000 → s.SPEED_BACKWARD = 5000 →
      s.SPEED_FORWARD ∈ [4000, 5000, 6000, 7000, 8000] →
      (input_events P s passes).SPEED_TURN = 6000
        ∧ (input_events P s passes).SPEED_BACKWARD = 5000
        ∧ (input_events P s passes).SPEED_FORWARD ∈ [4000, 5000, 6000, 7000, 8000] := by
  induction passes with
  | nil => intro s ht hb hf; exact ⟨ht, hb, hf⟩
  | cons p ps ih =>
    intro s ht hb hf
    obtain ⟨h1, h2, h3⟩ := get_gpio5_voltage_speeds P p.1 p.2 s
    refine ih (get_gpio5_voltage P p.1 p.2 s) (h1.trans ht) (h2.trans hb) ?_
    rcases h3 with h3 | h3
    · rw [h3]; exact hf
    · rw [h3, speed_adjust_forward]
      simp only [List.mem_cons, List.mem_singleton, List.not_mem_nil, or_false] at hf ⊢
      rcases hf with h | h | h | h | h <;> simp [h]

theorem appended_forward (s : Car) : appended s (car_forward s) = car_forward_events s := by
  rw [car_forward_eq]; exact List.drop_left _ _

theorem appended_backward (s : Car) : appended s (car_backward s) = car_backward_events s := by
  rw [car_backward_eq]; exact List.drop_left _ _

theorem appended_left (s : Car) : appended s (car_left s) = car_left_events s := by
  rw [car_left_eq]; exact List.drop_left _ _

theorem appended_right (s : Car) : appended s (car_right s) = car_right_events s := by
  rw [car_right_eq]; exact List.drop_left _ _

theorem appended_stop (s : Car) : appended s (car_stop s) = car_stop_events := by
  rw [car_stop_eq]; exact List.drop_left _ _

theorem car_where_to_go_mode (d l r : ℚ) (s : Car) (m : CarStatus) :
    car_where_to_go d l r { s with g_car_status := m }
      = { car_where_to_go d l r s with g_car_status := m } := by
  by_cases h : d < DISTANCE_BETWEEN_CAR_AND_OBSTACLE
  · rw [car_where_to_go_near d l r _ h, car_where_to_go_near d l r s h]
    rfl
  · rw [car_where_to_go_far d l r _ h, car_where_to_go_far d l r s h]
    rfl

theorem full_iteration_mode (r : ℚ × ℚ × ℚ) (s : Car) (m : CarStatus) :
    full_iteration r { s with g_car_status := m }
      = { full_iteration r s with g_car_status := m } := by
  have h := car_where_to_go_mode r.1 r.2.1 r.2.2 (s.log Event.GetDistance) m
  simp only [full_iteration, GetDistance, hi_sleep, Car.log] at h ⊢
  rw [h]

theorem full_iterations_mode (readings : Nat → ℚ × ℚ × ℚ) (k : Nat) :
    ∀ (i : Nat) (s : Car) (m : CarStatus),
      full_iterations readings k i { s with g_car_status := m }
        = { full_iterations readings k i s with g_car_status := m } := by
  induction k with
  | zero => intro i s m; rfl
  | succ k ih =>
    intro i s m
    simp only [full_iterations]
    rw [full_iteration_mode, ih]

theorem car_mode_control_loop_exit (readings : Nat → ℚ × ℚ × ℚ) (k : Nat) :
    ∀ (observed : List CarStatus) (i : Nat) (s : Car) (m : CarStatus),
      observed[k]? = some m → m ≠ CarStatus.CAR_OBSTACLE_AVOIDANCE_STATUS →
      (∀ j, j < k → observed[j]? = some CarStatus.CAR_OBSTACLE_AVOIDANCE_STATUS) →
      car_mode_control_loop readings observed i s
        = some { regress_middle (full_iterations readings k i s) with g_car_status := m } := by
  induction k with
  | zero =>
    intro observed i s m hk hm _
    cases observed with
    | nil => simp at hk
    | cons a rest =>
      have ha : a = m := by simpa using hk
      subst ha
      simp only [car_mode_control_loop, ne_eq, hm, not_false_eq_true, if_true, full_iterations]
      rfl
  | succ k ih =>
    intro observed i s m hk hm hprev
    cases observed with
    | nil => simp at hk
    | cons a rest =>
      have ha : a = CarStatus.CAR_OBSTACLE_AVOIDANCE_STATUS := by
        have := hprev 0 (Nat.succ_pos k)
        simpa using this
      subst ha
      have hk2 : rest[k]? = some m := by simpa using hk
      have hprev2 : ∀ j, j < k →
          rest[j]? = some CarStatus.CAR_OBSTACLE_AVOIDANCE_STATUS := by
        intro j hj
        have := hprev (j + 1) (by omega)
        simpa using this
      have hstep := ih rest (i + 1)
        (full_iteration (readings i)
          { s with g_car_status := CarStatus.CAR_OBSTACLE_AVOIDANCE_STATUS }) m hk2 hm hprev2
      simp only [car_mode_control_loop, ne_eq, not_true_eq_false, if_false, full_iterations]
      simp only [full_iteration, GetDistance, hi_sleep] at hstep ⊢
      rw [hstep]
      have h1 := full_iteration_mode (readings i) s CarStatus.CAR_OBSTACLE_AVOIDANCE_STATUS
      simp only [full_iteration, GetDistance, hi_sleep] at h1
      rw [h1, full_iterations_mode]
      rfl

theorem count_delay_stop : car_stop_events.count (Event.hi_sleep 20) = 0 := by decide

theorem count_delay_scout : scout_events.count (Event.hi_sleep 20) = 0 := by decide

theorem count_delay_start (p1 p2 : PwmPort) (d1 d2 f1 f2 : Nat) :
    [Event.hi_pwm_start p1 d1 f1, Event.hi_pwm_start p2 d2 f2].count (Event.hi_sleep 20)
      = 0 := by
  simp [List.count_cons]

theorem count_delay_forward (s : Car) :
    (car_forward_events s).count (Event.hi_sleep 20) = 0 := by
  unfold car_forward_events
  rw [List.count_append, count_delay_stop, count_delay_start]

theorem count_delay_backward (s : Car) :
    (car_backward_events s).count (Event.hi_sleep 20) = 0 := by
  unfold car_backward_events
  rw [List.count_append, count_delay_stop, count_delay_start]

theorem count_delay_left (s : Car) :
    (car_left_events s).count (Event.hi_sleep 20) = 0 := by
  unfold car_left_events
  rw [List.count_append, count_delay_stop, count_delay_start]

theorem count_delay_right (s : Car) :
    (car_right_events s).count (Event.hi_sleep 20) = 0 := by
  unfold car_right_events
  rw [List.count_append, count_delay_stop, count_delay_start]

theorem full_iteration_trace (r : ℚ × ℚ × ℚ) (s : Car) :
    ∃ X : List Event, (full_iteration r s).trace = s.trace ++ X
      ∧ X.count (Event.hi_sleep 20) = 1 := by
  by_cases h : r.1 < DISTANCE_BETWEEN_CAR_AND_OBSTACLE
  · by_cases hlr : r.2.1 > r.2.2
    · refine ⟨[Event.GetDistance] ++ car_stop_events
          ++ [Event.MOVING_STATUS 0, Event.hi_sleep 500]
          ++ car_backward_events s
          ++ [Event.MOVING_STATUS 5, Event.hi_sleep 500]
          ++ car_stop_events
          ++ [Event.MOVING_STATUS 0]
          ++ scout_events
          ++ (car_left_events s ++ [Event.MOVING_STATUS 2, Event.hi_sleep 750])
          ++ car_stop_events
          ++ [Event.MOVING_STATUS 0] ++ [Event.hi_sleep 20], ?_, ?_⟩
      · simp only [full_iteration, GetDistance, hi_sleep, Car.log]
        rw [car_where_to_go_near _ _ _ _ h, if_pos hlr]
        simp [car_backward_events, car_left_events]
      · simp only [List.count_append, count_delay_stop, count_delay_scout,
          count_delay_backward, count_delay_left]
        decide
    · refine ⟨[Event.GetDistance] ++ car_stop_events
          ++ [Event.MOVING_STATUS 0, Event.hi_sleep 500]
          ++ car_backward_events s
          ++ [Event.MOVING_STATUS 5, Event.hi_sleep 500]
          ++ car_stop_events
          ++ [Event.MOVING_STATUS 0]
          ++ scout_events
          ++ (car_right_events s ++ [Event.MOVING_STATUS 1, Event.hi_sleep 750])
          ++ car_stop_events
          ++ [Event.MOVING_STATUS 0] ++ [Event.hi_sleep 20], ?_, ?_⟩
      · simp only [full_iteration, GetDistance, hi_sleep, Car.log]
        rw [car_where_to_go_near _ _ _ _ h, if_neg hlr]
        simp [car_backward_events, car_right_events]
      · simp only [List.count_append, count_delay_stop, count_delay_scout,
          count_delay_backward, count_delay_right]
        decide
  · refine ⟨[Event.GetDistance] ++ car_forward_events s ++ [Event.MOVING_STATUS 3]
        ++ [Event.hi_sleep 20], ?_, ?_⟩
    · simp only [full_iteration, GetDistance, hi_sleep, Car.log]
      rw [car_where_to_go_far _ _ _ _ h]
      simp [car_forward_events]
    · simp only [List.count_append, count_delay_forward]
      decide

theorem full_iterations_trace (readings : Nat → ℚ × ℚ × ℚ) (k : Nat) :
    ∀ (i : Nat) (s : Car), ∃ X : List Event,
      (full_iterations readings k i s).trace = s.trace ++ X
        ∧ X.count (Event.hi_sleep 20) = k := by
  induction k with
  | zero => intro i s; exact ⟨[], by simp [full_iterations], rfl⟩
  | succ k ih =>
    intro i s
    obtain ⟨X1, hX1, hc1⟩ := full_iteration_trace (readings i) s
    obtain ⟨X2, hX2, hc2⟩ := ih (i + 1) (full_iteration (readings i) s)
    refine ⟨X1 ++ X2, ?_, ?_⟩
    · simp only [full_iterations]
      rw [hX2, hX1, List.append_assoc]
    · rw [List.count_append, hc1, hc2, Nat.add_comm]

theorem pwm_init_eq (s : Car) :
    pwm_init s = { s with trace := s.trace ++ pwm_init_events } := by
  simp [pwm_init, Car.log, pwm_init_events]

/-! ## Claims -/

/-- C1: for every starting state and every sequence of mode-advance events in which each
event's tick is at least `KEY_INTERRUPT_PROTECT_TIME` (modulo `2 ^ 32`) after the previous
one, the first after the stored timestamp, the mode after the sequence is the starting
mode advanced once per event along the cycle Stopped, LineFollow, ObstacleAvoidance,
RemoteControl, Stopped; a sequence of four such events restores the starting mode. -/
theorem C1_spaced_events_cycle (KEY_INTERRUPT_PROTECT_TIME : Nat) (s : Car) (ticks : List Nat)
    (h : spaced KEY_INTERRUPT_PROTECT_TIME s.g_gpio5_tick ticks) :
    (mode_events KEY_INTERRUPT_PROTECT_TIME s ticks).g_car_status
        = cycle_next^[ticks.length] s.g_car_status
      ∧ (ticks.length = 4 →
          (mode_events KEY_INTERRUPT_PROTECT_TIME s ticks).g_car_status = s.g_car_status) := by
  have h1 := mode_events_spaced KEY_INTERRUPT_PROTECT_TIME ticks s h
  refine ⟨h1, fun h4 => ?_⟩
  rw [h1, h4, cycle_next_four]

theorem C1_spaced_events_cycle_witness :
    spaced 30 (startup 4294967290).g_gpio5_tick [24, 54, 100, 130]
      ∧ (mode_events 30 (startup 4294967290) [24, 54, 100]).g_car_status
          = CarStatus.CAR_CONTROL_STATUS
      ∧ (mode_events 30 (startup 4294967290) [24, 54, 100, 130]).g_car_status
          = CarStatus.CAR_STOP_STATUS := by
  have hs : spaced 30 (startup 4294967290).g_gpio5_tick [24, 54, 100, 130] := by decide
  have hs3 : spaced 30 (startup 4294967290).g_gpio5_tick [24, 54, 100] := by decide
  refine ⟨hs, ?_, ?_⟩
  · rw [(C1_spaced_events_cycle 30 (startup 4294967290) [24, 54, 100] hs3).1]; rfl
  · exact (C1_spaced_events_cycle 30 (startup 4294967290) [24, 54, 100, 130] hs).2 rfl

/-- C2: a mode-advance event whose tick is less than `KEY_INTERRUPT_PROTECT_TIME` (modulo
`2 ^ 32`) after the stored timestamp is dropped, leaving the mode and the timestamp (the
whole state) unchanged; any other event stores its tick as the new timestamp and moves
the mode one step along the cycle, to a different mode.  Hence,
over every event sequence, each mode-changing event lies at least the protect time (modulo
`2 ^ 32`) after the previous mode-changing one (the first after the stored timestamp), and
when the events occur at non-decreasing times after the time `T0` of the stored timestamp
(the counter read at time `t` being `t % 2 ^ 32`), any two mode-changing events are at
least the protect time apart. -/
theorem C2_debounce_gate (KEY_INTERRUPT_PROTECT_TIME : Nat) (s : Car) :
    (∀ now : Nat, sub_u32 (now % 4294967296) s.g_gpio5_tick < KEY_INTERRUPT_PROTECT_TIME →
        gpio5_isr_func_mode KEY_INTERRUPT_PROTECT_TIME now s = s)
      ∧ (∀ now : Nat, ¬ sub_u32 (now % 4294967296) s.g_gpio5_tick < KEY_INTERRUPT_PROTECT_TIME →
          (gpio5_isr_func_mode KEY_INTERRUPT_PROTECT_TIME now s).g_gpio5_tick
              = now % 4294967296
            ∧ (gpio5_isr_func_mode KEY_INTERRUPT_PROTECT_TIME now s).g_car_status
              = cycle_next s.g_car_status
            ∧ (gpio5_isr_func_mode KEY_INTERRUPT_PROTECT_TIME now s).g_car_status
              ≠ s.g_car_status)
      ∧ (∀ ticks : List Nat,
          List.Chain
            (fun prev cur => KEY_INTERRUPT_PROTECT_TIME ≤ sub_u32 (cur % 4294967296) prev)
            s.g_gpio5_tick (accepted_events KEY_INTERRUPT_PROTECT_TIME s ticks))
      ∧ (∀ (T0 : Nat) (times : List Nat), s.g_gpio5_tick = T0 % 4294967296 →
          List.Chain (fun a b => a ≤ b) T0 times →
          List.Pairwise (fun a b => a + KEY_INTERRUPT_PROTECT_TIME ≤ b)
            (accepted_events KEY_INTERRUPT_PROTECT_TIME s times)) := by
  refine ⟨fun now h => isr_drop _ now s h, fun now h => ?_,
    fun ticks => accepted_events_chain _ ticks s,
    fun T0 times hs hch => (accepted_events_apart _ times T0 s hs hch).2⟩
  rw [isr_accept _ now s (Nat.le_of_not_lt h)]
  exact ⟨rfl, rfl, cycle_next_ne _⟩

theorem C2_debounce_gate_witness :
    gpio5_isr_func_mode 30 4294967300 (startup 4294967290) = startup 4294967290
      ∧ (gpio5_isr_func_mode 30 4294967330 (startup 4294967290)).g_gpio5_tick = 34
      ∧ accepted_events 30 (startup 4294967290)
          [4294967300, 4294967330, 4294967340, 4294967360, 4294967400]
        = [4294967330, 4294967360, 4294967400]
      ∧ List.Pairwise (fun a b => a + 30 ≤ b)
          (accepted_events 30 (startup 4294967290)
            [4294967300, 4294967330, 4294967340, 4294967360, 4294967400]) := by
  have h := C2_debounce_gate 30 (startup 4294967290)
  refine ⟨h.1 4294967300 (by decide), (h.2.1 4294967330 (by decide)).1, by decide, ?_⟩
  exact h.2.2.2 4294967290 [4294967300, 4294967330, 4294967340, 4294967360, 4294967400]
    rfl (by simp)

/-- C3: for every value of `SPEED_FORWARD`, a speed-adjust event sets it to the value plus
1000 when the value is at most 7000 (the 16-bit store does not wrap) and to 4000 otherwise;
starting from 4000 the value after `n` events is `4000 + 1000 * (n % 5)`, that is 5000,
6000, 7000, 8000, 4000, and so on with period 5. -/
theorem C3_speed_adjust (s : Car) :
    (speed_adjust s).SPEED_FORWARD
        = (if s.SPEED_FORWARD ≤ 7000 then s.SPEED_FORWARD + 1000 else 4000)
      ∧ (s.SPEED_FORWARD = 4000 →
          (∀ n : Nat, (speed_adjust^[n] s).SPEED_FORWARD = 4000 + 1000 * (n % 5))
            ∧ (List.range 6).map (fun n => (speed_adjust^[n] s).SPEED_FORWARD)
                = [4000, 5000, 6000, 7000, 8000, 4000]
            ∧ ∀ n : Nat, (speed_adjust^[n + 5] s).SPEED_FORWARD
                = (speed_adjust^[n] s).SPEED_FORWARD) := by
  refine ⟨speed_adjust_forward s, fun h => ⟨speed_adjust_iterate_from_floor s h, ?_, ?_⟩⟩
  · simp [List.range, List.range.loop, speed_adjust_iterate_from_floor s h]
  · intro n
    rw [speed_adjust_iterate_from_floor s h, speed_adjust_iterate_from_floor s h]
    omega

theorem C3_speed_adjust_witness :
    (speed_adjust { startup 0 with SPEED_FORWARD := 4000 }).SPEED_FORWARD = 5000
      ∧ (speed_adjust^[4] { startup 0 with SPEED_FORWARD := 4000 }).SPEED_FORWARD = 8000
      ∧ (speed_adjust^[5] { startup 0 with SPEED_FORWARD := 4000 }).SPEED_FORWARD = 4000 := by
  have h := C3_speed_adjust { startup 0 with SPEED_FORWARD := 4000 }
  refine ⟨by rw [h.1]; rfl, by rw [(h.2 rfl).1 4], by rw [(h.2 rfl).1 5]⟩

/-- C4: for every window of 20 successfully read codes with maximum `m` and voltage
`m * 1.8 * 4 / 4096` taken in exact rational arithmetic, `get_gpio5_voltage` runs the
mode-advance handler when the voltage lies strictly between 0.01 and 0.3, which is the
case exactly for `m` from 6 to 170; it applies the speed adjustment when the voltage lies
strictly between 0.6 and 1.5, exactly for `m` from 342 to 853; otherwise the mode, the
three speeds and the debounce timestamp are unchanged.  The two bands are disjoint, and
two windows with the same maximum lead to the same mode, speeds and timestamp.  The
voltage of every code is at least 0.0005 away from each of the four band edges. -/
theorem C4_voltage_bands (KEY_INTERRUPT_PROTECT_TIME : Nat) (hi_adc_read : Nat → Option Nat)
    (hi_get_tick : Nat) (s : Car) (window : List Nat) (hlen : window.length = 20)
    (hread : ∀ i, i < 20 → hi_adc_read i = window[i]?) :
    (get_gpio5_voltage KEY_INTERRUPT_PROTECT_TIME hi_adc_read hi_get_tick s
        = if code_voltage (window.foldl max 0) > 0.01 ∧ code_voltage (window.foldl max 0) < 0.3
          then gpio5_isr_func_mode KEY_INTERRUPT_PROTECT_TIME hi_get_tick (sampled s window)
          else if code_voltage (window.foldl max 0) > 0.6
              ∧ code_voltage (window.foldl max 0) < 1.5
          then speed_adjust (sampled s window)
          else sampled s window)
      ∧ code_voltage (window.foldl max 0) = ((window.foldl max 0 : Nat) : ℚ) * 18 / 10 * 4 / 4096
      ∧ ((code_voltage (window.foldl max 0) > 0.01 ∧ code_voltage (window.foldl max 0) < 0.3)
          ↔ (6 ≤ window.foldl max 0 ∧ window.foldl max 0 ≤ 170))
      ∧ ((code_voltage (window.foldl max 0) > 0.6 ∧ code_voltage (window.foldl max 0) < 1.5)
          ↔ (342 ≤ window.foldl max 0 ∧ window.foldl max 0 ≤ 853))
      ∧ ¬ ((code_voltage (window.foldl max 0) > 0.01 ∧ code_voltage (window.foldl max 0) < 0.3)
          ∧ (code_voltage (window.foldl max 0) > 0.6
            ∧ code_voltage (window.foldl max 0) < 1.5))
      ∧ (¬ (code_voltage (window.foldl max 0) > 0.01 ∧ code_voltage (window.foldl max 0) < 0.3) →
          ¬ (code_voltage (window.foldl max 0) > 0.6
            ∧ code_voltage (window.foldl max 0) < 1.5) →
          get_gpio5_voltage KEY_INTERRUPT_PROTECT_TIME hi_adc_read hi_get_tick s
            = sampled s window)
      ∧ (∀ (hi_adc_read2 : Nat → Option Nat) (window2 : List Nat), window2.length = 20 →
          (∀ i, i < 20 → hi_adc_read2 i = window2[i]?) →
          window2.foldl max 0 = window.foldl max 0 →
          get_gpio5_voltage KEY_INTERRUPT_PROTECT_TIME hi_adc_read2 hi_get_tick s
            = { get_gpio5_voltage KEY_INTERRUPT_PROTECT_TIME hi_adc_read hi_get_tick s with
                g_gpio5_adc_buf := window2 })
      ∧ ((code_voltage (window.foldl max 0) + 1 / 2000 ≤ 0.01
            ∨ 0.01 + 1 / 2000 ≤ code_voltage (window.foldl max 0))
          ∧ (code_voltage (window.foldl max 0) + 1 / 2000 ≤ 0.3
            ∨ 0.3 + 1 / 2000 ≤ code_voltage (window.foldl max 0))
          ∧ (code_voltage (window.foldl max 0) + 1 / 2000 ≤ 0.6
            ∨ 0.6 + 1 / 2000 ≤ code_voltage (window.foldl max 0))
          ∧ (code_voltage (window.foldl max 0) + 1 / 2000 ≤ 1.5
            ∨ 1.5 + 1 / 2000 ≤ code_voltage (window.foldl max 0))) := by
  have hA := get_gpio5_voltage_ok KEY_INTERRUPT_PROTECT_TIME hi_adc_read hi_get_tick s window
    hlen hread
  refine ⟨hA, ?_, mode_band_iff _, speed_band_iff _, ?_, ?_, ?_, code_voltage_margin _⟩
  · unfold code_voltage; norm_num; ring
  · rw [mode_band_iff, speed_band_iff]; omega
  · intro h1 h2
    rw [hA, if_neg h1, if_neg h2]
  · intro adc2 window2 hlen2 hread2 hmax
    rw [get_gpio5_voltage_ok_sampled _ adc2 _ s window2 hlen2 hread2,
      get_gpio5_voltage_ok_sampled _ hi_adc_read _ s window hlen hread, hmax]
    simp only [sampled, hlen, hlen2]

theorem C4_voltage_bands_witness :
    (get_gpio5_voltage 30 (fun i => (List.replicate 19 3 ++ [85])[i]?) 100
        (startup 0)).g_car_status = CarStatus.CAR_TRACE_STATUS
      ∧ (get_gpio5_voltage 30 (fun i => (569 :: List.replicate 19 0)[i]?) 100
          (startup 0)).SPEED_FORWARD = 7000
      ∧ get_gpio5_voltage 30 (fun i => (List.replicate 20 284)[i]?) 100 (startup 0)
          = sampled (startup 0) (List.replicate 20 284) := by
  have h1 := (C4_voltage_bands 30 (fun i => (List.replicate 19 3 ++ [85])[i]?) 100 (startup 0)
    (List.replicate 19 3 ++ [85]) (by decide) (fun _ _ => rfl)).1
  have h2 := (C4_voltage_bands 30 (fun i => (569 :: List.replicate 19 0)[i]?) 100 (startup 0)
    (569 :: List.replicate 19 0) (by decide) (fun _ _ => rfl)).1
  have h3 := (C4_voltage_bands 30 (fun i => (List.replicate 20 284)[i]?) 100 (startup 0)
    (List.replicate 20 284) (by decide) (fun _ _ => rfl)).1
  refine ⟨?_, ?_, ?_⟩
  · rw [h1, if_pos (by rw [mode_band_iff]; decide)]; decide
  · rw [h2, if_neg (by rw [mode_band_iff]; decide), if_pos (by rw [speed_band_iff]; decide)]
    decide
  · rw [h3, if_neg (by rw [mode_band_iff]; decide), if_neg (by rw [speed_band_iff]; decide)]

/-- C5: when the read at index `k` (any of the 20) of a sampling pass fails, the pass ends
with the mode, the three speeds, the debounce timestamp, the movement status and the PWM
channels unchanged; and when `k` is the first failing index, exactly `k + 1` reads have been
made, so none is attempted after the failing one. -/
theorem C5_read_failure_aborts (KEY_INTERRUPT_PROTECT_TIME : Nat)
    (hi_adc_read : Nat → Option Nat) (hi_get_tick : Nat) (s : Car) (k : Nat) (hk : k < 20)
    (hfail : hi_adc_read k = none) :
    (get_gpio5_voltage KEY_INTERRUPT_PROTECT_TIME hi_adc_read hi_get_tick s).g_car_status
        = s.g_car_status
      ∧ (get_gpio5_voltage KEY_INTERRUPT_PROTECT_TIME hi_adc_read hi_get_tick s).SPEED_FORWARD
        = s.SPEED_FORWARD
      ∧ (get_gpio5_voltage KEY_INTERRUPT_PROTECT_TIME hi_adc_read hi_get_tick s).g_gpio5_tick
        = s.g_gpio5_tick
      ∧ (get_gpio5_voltage KEY_INTERRUPT_PROTECT_TIME hi_adc_read hi_get_tick s).SPEED_TURN
        = s.SPEED_TURN
      ∧ (get_gpio5_voltage KEY_INTERRUPT_PROTECT_TIME hi_adc_read hi_get_tick s).SPEED_BACKWARD
        = s.SPEED_BACKWARD
      ∧ (get_gpio5_voltage KEY_INTERRUPT_PROTECT_TIME hi_adc_read hi_get_tick s).MOVING_STATUS
        = s.MOVING_STATUS
      ∧ (get_gpio5_voltage KEY_INTERRUPT_PROTECT_TIME hi_adc_read hi_get_tick s).pwm = s.pwm
      ∧ ((∀ j, j < k → hi_adc_read j ≠ none) →
          (get_gpio5_voltage KEY_INTERRUPT_PROTECT_TIME hi_adc_read hi_get_tick s).trace
            = s.trace ++ List.replicate (k + 1) Event.hi_adc_read) := by
  obtain ⟨k0, hk0, hf0, hp0⟩ := first_failed_read hi_adc_read k hfail
  obtain ⟨buf, hbuf⟩ := get_gpio5_voltage_fail KEY_INTERRUPT_PROTECT_TIME hi_adc_read
    hi_get_tick s k0 (by omega) hf0 hp0
  refine ⟨by rw [hbuf], by rw [hbuf], by rw [hbuf], by rw [hbuf], by rw [hbuf], by rw [hbuf],
    by rw [hbuf], fun hprev => ?_⟩
  obtain ⟨buf2, hbuf2⟩ := get_gpio5_voltage_fail KEY_INTERRUPT_PROTECT_TIME hi_adc_read
    hi_get_tick s k hk hfail hprev
  rw [hbuf2]

theorem C5_read_failure_aborts_witness :
    (get_gpio5_voltage 30 (fun i => if i = 7 then none else some 100) 100
        (startup 0)).g_car_status = CarStatus.CAR_STOP_STATUS
      ∧ (get_gpio5_voltage 30 (fun i => if i = 7 then none else some 100) 100
          (startup 0)).trace = List.replicate 8 Event.hi_adc_read := by
  have h := C5_read_failure_aborts 30 (fun i => if i = 7 then none else some 100) 100
    (startup 0) 7 (by decide) rfl
  refine ⟨h.1, ?_⟩
  rw [h.2.2.2.2.2.2.2 (fun j hj => by
    have : j ≠ 7 := by omega
    simp [this])]
  rfl

/-- C6: for every distance, every pair of scout readings and every state (whatever the
mode), one call of `car_where_to_go` does the following.  Below 20 it records exactly:
stop, MOVING_STATUS 0, sleep 500, backward, MOVING_STATUS 5, sleep 500, stop,
MOVING_STATUS 0, the scout (which contains no drive-motor command), then either turn-left
with MOVING_STATUS 2 or turn-right with MOVING_STATUS 1, sleep 750, stop, MOVING_STATUS 0;
it ends with all four PWM channels off and changes nothing else.  From 20 upwards (20
included) it records only forward and MOVING_STATUS 3, with no sleep and no scout. -/
theorem C6_avoidance_iteration (d l r : ℚ) (s : Car) :
    (d < 20 →
        car_where_to_go d l r s =
          { s with
            MOVING_STATUS := 0
            pwm := PwmChannels.off
            trace := s.trace ++ car_stop_events
              ++ [Event.MOVING_STATUS 0, Event.hi_sleep 500]
              ++ car_backward_events s
              ++ [Event.MOVING_STATUS 5, Event.hi_sleep 500]
              ++ car_stop_events
              ++ [Event.MOVING_STATUS 0]
              ++ scout_events
              ++ (if l > r then
                    car_left_events s ++ [Event.MOVING_STATUS 2, Event.hi_sleep 750]
                  else car_right_events s ++ [Event.MOVING_STATUS 1, Event.hi_sleep 750])
              ++ car_stop_events
              ++ [Event.MOVING_STATUS 0] })
      ∧ (20 ≤ d →
          car_where_to_go d l r s =
            { s with
              MOVING_STATUS := 3
              pwm := { pwm0 := none, pwm1 := some (s.SPEED_FORWARD, 8000), pwm3 := none,
                       pwm4 := some (s.SPEED_FORWARD, 8000) }
              trace := s.trace ++ car_forward_events s ++ [Event.MOVING_STATUS 3] })
      ∧ (∀ e ∈ scout_events, e.is_drive = false) := by
  refine ⟨fun h => car_where_to_go_near d l r s h, fun h => ?_, by decide⟩
  exact car_where_to_go_far d l r s (not_lt.mpr h)

theorem C6_avoidance_iteration_witness :
    (15 : ℚ) < 20 ∧ (20 : ℚ) ≤ 20
      ∧ (car_where_to_go 15 30 10 (startup 0)).trace
        = [Event.hi_pwm_stop PwmPort.HI_PWM_PORT_PWM3, Event.hi_pwm_stop PwmPort.HI_PWM_PORT_PWM4,
           Event.hi_pwm_stop PwmPort.HI_PWM_PORT_PWM0, Event.hi_pwm_stop PwmPort.HI_PWM_PORT_PWM1,
           Event.MOVING_STATUS 0, Event.hi_sleep 500,
           Event.hi_pwm_stop PwmPort.HI_PWM_PORT_PWM3, Event.hi_pwm_stop PwmPort.HI_PWM_PORT_PWM4,
           Event.hi_pwm_stop PwmPort.HI_PWM_PORT_PWM0, Event.hi_pwm_stop PwmPort.HI_PWM_PORT_PWM1,
           Event.hi_pwm_start PwmPort.HI_PWM_PORT_PWM3 5000 8000,
           Event.hi_pwm_start PwmPort.HI_PWM_PORT_PWM0 5000 8000,
           Event.MOVING_STATUS 5, Event.hi_sleep 500,
           Event.hi_pwm_stop PwmPort.HI_PWM_PORT_PWM3, Event.hi_pwm_stop PwmPort.HI_PWM_PORT_PWM4,
           Event.hi_pwm_stop PwmPort.HI_PWM_PORT_PWM0, Event.hi_pwm_stop PwmPort.HI_PWM_PORT_PWM1,
           Event.MOVING_STATUS 0,
           Event.engine_turn_left, Event.hi_sleep 100, Event.GetDistance, Event.hi_sleep 100,
           Event.regress_middle, Event.hi_sleep 100,
           Event.engine_turn_right, Event.hi_sleep 100, Event.GetDistance, Event.hi_sleep 100,
           Event.regress_middle,
           Event.hi_pwm_stop PwmPort.HI_PWM_PORT_PWM3, Event.hi_pwm_stop PwmPort.HI_PWM_PORT_PWM4,
           Event.hi_pwm_stop PwmPort.HI_PWM_PORT_PWM0, Event.hi_pwm_stop PwmPort.HI_PWM_PORT_PWM1,
           Event.hi_pwm_start PwmPort.HI_PWM_PORT_PWM3 6000 8000,
           Event.hi_pwm_start PwmPort.HI_PWM_PORT_PWM1 6000 8000,
           Event.MOVING_STATUS 2, Event.hi_sleep 750,
           Event.hi_pwm_stop PwmPort.HI_PWM_PORT_PWM3, Event.hi_pwm_stop PwmPort.HI_PWM_PORT_PWM4,
           Event.hi_pwm_stop PwmPort.HI_PWM_PORT_PWM0, Event.hi_pwm_stop PwmPort.HI_PWM_PORT_PWM1,
           Event.MOVING_STATUS 0]
      ∧ (car_where_to_go 15 30 10 (startup 0)).pwm = PwmChannels.off
      ∧ (car_where_to_go 20 30 10 (startup 0)).trace
        = [Event.hi_pwm_stop PwmPort.HI_PWM_PORT_PWM3, Event.hi_pwm_stop PwmPort.HI_PWM_PORT_PWM4,
           Event.hi_pwm_stop PwmPort.HI_PWM_PORT_PWM0, Event.hi_pwm_stop PwmPort.HI_PWM_PORT_PWM1,
           Event.hi_pwm_start PwmPort.HI_PWM_PORT_PWM4 6000 8000,
           Event.hi_pwm_start PwmPort.HI_PWM_PORT_PWM1 6000 8000,
           Event.MOVING_STATUS 3] := by
  have h := C6_avoidance_iteration 15 30 10 (startup 0)
  have h20 := C6_avoidance_iteration 20 30 10 (startup 0)
  refine ⟨by norm_num, le_refl 20, ?_, ?_, ?_⟩
  · rw [h.1 (by norm_num), if_pos (by norm_num)]
    rfl
  · rw [h.1 (by norm_num)]
  · rw [h20.2.1 (le_refl 20)]
    rfl

/-- C7: for every pair of readings `engine_go_where` returns `CAR_TURN_LEFT` exactly when
the left reading is greater than the right one and `CAR_TURN_RIGHT` otherwise, so equal
readings give right.  It records steer left, sleep, measure, sleep, recentre, sleep, steer
right, sleep, measure, sleep, recentre, touches nothing else, and the last steering command
on record after the call is the recentring. -/
theorem C7_scout_direction (left_reading right_reading : ℚ) (s : Car) :
    ((engine_go_where left_reading right_reading s).1 = TurnDir.CAR_TURN_LEFT
        ↔ left_reading > right_reading)
      ∧ ((engine_go_where left_reading right_reading s).1 = TurnDir.CAR_TURN_RIGHT
        ↔ left_reading ≤ right_reading)
      ∧ (left_reading = right_reading →
          (engine_go_where left_reading right_reading s).1 = TurnDir.CAR_TURN_RIGHT)
      ∧ (engine_go_where left_reading right_reading s).2
        = { s with
            trace := s.trace ++
              [Event.engine_turn_left, Event.hi_sleep 100, Event.GetDistance, Event.hi_sleep 100,
               Event.regress_middle, Event.hi_sleep 100,
               Event.engine_turn_right, Event.hi_sleep 100, Event.GetDistance,
               Event.hi_sleep 100, Event.regress_middle] }
      ∧ ((engine_go_where left_reading right_reading s).2.trace.filter
            Event.is_steering).getLast? = some Event.regress_middle := by
  rw [engine_go_where_eq]
  refine ⟨?_, ?_, ?_, rfl, ?_⟩
  · by_cases h : left_reading > right_reading <;> simp [h]
  · by_cases h : left_reading > right_reading
    · simp [h]
    · simp [h, not_lt.mp h]
  · intro h
    simp [h]
  · simp [scout_events, List.filter_append, List.filter, Event.is_steering,
      List.getLast?_append]

theorem C7_scout_direction_witness :
    (engine_go_where 30 10 (startup 0)).1 = TurnDir.CAR_TURN_LEFT
      ∧ (engine_go_where 10 30 (startup 0)).1 = TurnDir.CAR_TURN_RIGHT
      ∧ (engine_go_where 20 20 (startup 0)).1 = TurnDir.CAR_TURN_RIGHT :=
  ⟨(C7_scout_direction 30 10 (startup 0)).1.mpr (by norm_num),
   (C7_scout_direction 10 30 (startup 0)).2.1.mpr (by norm_num),
   (C7_scout_direction 20 20 (startup 0)).2.2.1 rfl⟩

/-- C8: for every prior state of the PWM channels and every speed profile that
speed-adjust events produce from the startup values, `car_left` and `car_right` each leave
exactly two of the four channels with a nonzero duty and the other two stopped: `car_left`
leaves PWM3 at `SPEED_FORWARD` and PWM1 at `SPEED_TURN`, `car_right` leaves PWM0 at
`SPEED_FORWARD` and PWM4 at `SPEED_TURN`. -/
theorem C8_turn_two_channels (s : Car) (h : reachable_profile s) :
    (car_left s).pwm
        = { pwm0 := none, pwm1 := some (s.SPEED_TURN, 8000),
            pwm3 := some (s.SPEED_FORWARD, 8000), pwm4 := none }
      ∧ (car_right s).pwm
        = { pwm0 := some (s.SPEED_FORWARD, 8000), pwm1 := none, pwm3 := none,
            pwm4 := some (s.SPEED_TURN, 8000) }
      ∧ (car_left s).pwm.duties = [0, s.SPEED_TURN, s.SPEED_FORWARD, 0]
      ∧ (car_right s).pwm.duties = [s.SPEED_FORWARD, 0, 0, s.SPEED_TURN]
      ∧ ((car_left s).pwm.duties.filter (fun d => d ≠ 0)).length = 2
      ∧ ((car_right s).pwm.duties.filter (fun d => d ≠ 0)).length = 2 := by
  obtain ⟨ht, _, hf, _, _⟩ := reachable_profile_bounds s h
  have hf0 : s.SPEED_FORWARD ≠ 0 := by omega
  have ht0 : s.SPEED_TURN ≠ 0 := by omega
  rw [car_left_eq, car_right_eq]
  refine ⟨rfl, rfl, rfl, rfl, ?_, ?_⟩
  · simp [PwmChannels.duties, duty, List.filter, hf0, ht0]
  · simp [PwmChannels.duties, duty, List.filter, hf0, ht0]

theorem C8_turn_two_channels_witness :
    reachable_profile (car_forward (speed_adjust (speed_adjust (startup 0))))
      ∧ (car_left (car_forward (speed_adjust (speed_adjust (startup 0))))).pwm.duties
        = [0, 6000, 8000, 0]
      ∧ (car_right (car_forward (speed_adjust (speed_adjust (startup 0))))).pwm.duties
        = [8000, 0, 0, 6000] := by
  have hr : reachable_profile (car_forward (speed_adjust (speed_adjust (startup 0)))) :=
    ⟨2, rfl, rfl, rfl⟩
  have h := C8_turn_two_channels _ hr
  exact ⟨hr, by rw [h.2.2.1]; rfl, by rw [h.2.2.2.1]; rfl⟩

/-- C9, evaluated on the code: `car_forward` starts PWM4 and PWM1, `car_backward` starts
PWM3 and PWM0, whereas `car_right` starts PWM0 and PWM4 and `car_left` starts PWM3 and
PWM1; so each turn starts one channel that `car_backward` starts and `car_forward` does
not (PWM0 for `car_right`, PWM3 for `car_left`). -/
theorem C9_turn_starts_backward_channel :
    started_ports (car_forward (startup 0)).trace
        = [PwmPort.HI_PWM_PORT_PWM4, PwmPort.HI_PWM_PORT_PWM1]
      ∧ started_ports (car_backward (startup 0)).trace
        = [PwmPort.HI_PWM_PORT_PWM3, PwmPort.HI_PWM_PORT_PWM0]
      ∧ started_ports (car_right (startup 0)).trace
        = [PwmPort.HI_PWM_PORT_PWM0, PwmPort.HI_PWM_PORT_PWM4]
      ∧ started_ports (car_left (startup 0)).trace
        = [PwmPort.HI_PWM_PORT_PWM3, PwmPort.HI_PWM_PORT_PWM1]
      ∧ ¬ (∀ p ∈ started_ports (car_right (startup 0)).trace,
            p ∈ started_ports (car_forward (startup 0)).trace
              ∧ p ∉ started_ports (car_backward (startup 0)).trace)
      ∧ ¬ (∀ p ∈ started_ports (car_left (startup 0)).trace,
            p ∈ started_ports (car_forward (startup 0)).trace
              ∧ p ∉ started_ports (car_backward (startup 0)).trace) := by
  decide

/-- C10: each of `car_forward`, `car_backward`, `car_left`, `car_right` and `car_stop`
first stops all four PWM channels (PWM3, PWM4, PWM0, PWM1) and only then starts its own
two, if any; whatever the channels were before, the four-channel state afterwards is
given by the operation and the three speeds alone, the channels the operation does not
start being stopped.  Hence two prior states with the same speeds give the same channels,
doing an operation twice gives the channels of doing it once, and `car_stop` leaves all
four channels stopped. -/
theorem C10_operations_silence_first (s : Car) :
    (car_forward s =
        { s with
          pwm := { pwm0 := none, pwm1 := some (s.SPEED_FORWARD, 8000), pwm3 := none,
                   pwm4 := some (s.SPEED_FORWARD, 8000) }
          trace := s.trace ++ car_stop_events ++
            [Event.hi_pwm_start PwmPort.HI_PWM_PORT_PWM4 s.SPEED_FORWARD 8000,
             Event.hi_pwm_start PwmPort.HI_PWM_PORT_PWM1 s.SPEED_FORWARD 8000] }
      ∧ car_backward s =
        { s with
          pwm := { pwm0 := some (s.SPEED_BACKWARD, 8000), pwm1 := none,
                   pwm3 := some (s.SPEED_BACKWARD, 8000), pwm4 := none }
          trace := s.trace ++ car_stop_events ++
            [Event.hi_pwm_start PwmPort.HI_PWM_PORT_PWM3 s.SPEED_BACKWARD 8000,
             Event.hi_pwm_start PwmPort.HI_PWM_PORT_PWM0 s.SPEED_BACKWARD 8000] }
      ∧ car_left s =
        { s with
          pwm := { pwm0 := none, pwm1 := some (s.SPEED_TURN, 8000),
                   pwm3 := some (s.SPEED_FORWARD, 8000), pwm4 := none }
          trace := s.trace ++ car_stop_events ++
            [Event.hi_pwm_start PwmPort.HI_PWM_PORT_PWM3 s.SPEED_FORWARD 8000,
             Event.hi_pwm_start PwmPort.HI_PWM_PORT_PWM1 s.SPEED_TURN 8000] }
      ∧ car_right s =
        { s with
          pwm := { pwm0 := some (s.SPEED_FORWARD, 8000), pwm1 := none, pwm3 := none,
                   pwm4 := some (s.SPEED_TURN, 8000) }
          trace := s.trace ++ car_stop_events ++
            [Event.hi_pwm_start PwmPort.HI_PWM_PORT_PWM0 s.SPEED_FORWARD 8000,
             Event.hi_pwm_start PwmPort.HI_PWM_PORT_PWM4 s.SPEED_TURN 8000] }
      ∧ car_stop s = { s with pwm := PwmChannels.off, trace := s.trace ++ car_stop_events })
      ∧ car_stop_events =
        [Event.hi_pwm_stop PwmPort.HI_PWM_PORT_PWM3, Event.hi_pwm_stop PwmPort.HI_PWM_PORT_PWM4,
         Event.hi_pwm_stop PwmPort.HI_PWM_PORT_PWM0, Event.hi_pwm_stop PwmPort.HI_PWM_PORT_PWM1]
      ∧ (∀ s2 : Car, s2.SPEED_FORWARD = s.SPEED_FORWARD → s2.SPEED_BACKWARD = s.SPEED_BACKWARD →
          s2.SPEED_TURN = s.SPEED_TURN →
          (car_forward s2).pwm = (car_forward s).pwm
            ∧ (car_backward s2).pwm = (car_backward s).pwm
            ∧ (car_left s2).pwm = (car_left s).pwm
            ∧ (car_right s2).pwm = (car_right s).pwm
            ∧ (car_stop s2).pwm = (car_stop s).pwm)
      ∧ ((car_forward (car_forward s)).pwm = (car_forward s).pwm
          ∧ (car_backward (car_backward s)).pwm = (car_backward s).pwm
          ∧ (car_left (car_left s)).pwm = (car_left s).pwm
          ∧ (car_right (car_right s)).pwm = (car_right s).pwm
          ∧ (car_stop (car_stop s)).pwm = (car_stop s).pwm)
      ∧ (car_stop s).pwm = PwmChannels.off := by
  refine ⟨⟨?_, ?_, ?_, ?_, ?_⟩, rfl, ?_, ?_, ?_⟩
  · rw [car_forward_eq]; simp [car_forward_events]
  · rw [car_backward_eq]; simp [car_backward_events]
  · rw [car_left_eq]; simp [car_left_events]
  · rw [car_right_eq]; simp [car_right_events]
  · exact car_stop_eq s
  · intro s2 hf hb ht
    simp only [car_forward_eq, car_backward_eq, car_left_eq, car_right_eq, car_stop_eq, hf, hb,
      ht, and_self]
  · simp only [car_forward_eq, car_backward_eq, car_left_eq, car_right_eq, car_stop_eq,
      and_self]
  · rw [car_stop_eq]

theorem C10_operations_silence_first_witness :
    (car_left (car_backward (startup 0))).pwm = (car_left (startup 0)).pwm
      ∧ (car_left (startup 0)).pwm
        = { pwm0 := none, pwm1 := some (6000, 8000), pwm3 := some (6000, 8000), pwm4 := none }
      ∧ (car_stop (car_forward (startup 0))).pwm = PwmChannels.off := by
  have h := C10_operations_silence_first (startup 0)
  refine ⟨((h.2.2.1 (car_backward (startup 0)) rfl rfl rfl).2.2.1), ?_, ?_⟩
  · rw [h.1.2.2.1]; rfl
  · exact (C10_operations_silence_first (car_forward (startup 0))).2.2.2.2

/-- C11: one pass through the dispatch loop with the mode RemoteControl returns, records
only the watchdog call and the delay of 20, so no drive-motor command, and leaves the PWM
channels, `MOVING_STATUS` and every other global unchanged; with the mode Stopped it runs
`car_stop` and leaves all four channels stopped.  For each of the four mode values the pass
runs the behaviour of that mode alone: `car_stop`, `trace_module`, `car_mode_control_func`,
or nothing, followed by the watchdog call and the delay. -/
theorem C11_dispatch_tick (trace_module : Car → Car) (readings : Nat → ℚ × ℚ × ℚ)
    (observed : List CarStatus) (s : Car) :
    (s.g_car_status = CarStatus.CAR_CONTROL_STATUS →
        RobotCarTestTask_tick trace_module readings observed s
            = some { s with trace := s.trace ++ [Event.IoTWatchDogDisable, Event.osDelay 20] }
          ∧ ∀ e ∈ [Event.IoTWatchDogDisable, Event.osDelay 20], e.is_drive = false)
      ∧ (s.g_car_status = CarStatus.CAR_STOP_STATUS →
          RobotCarTestTask_tick trace_module readings observed s
            = some { s with
                pwm := PwmChannels.off
                trace := s.trace ++ car_stop_events
                  ++ [Event.IoTWatchDogDisable, Event.osDelay 20] })
      ∧ (s.g_car_status = CarStatus.CAR_STOP_STATUS →
          RobotCarTestTask_tick trace_module readings observed s
            = some (osDelay 20 (IoTWatchDogDisable (car_stop s))))
      ∧ (s.g_car_status = CarStatus.CAR_TRACE_STATUS →
          RobotCarTestTask_tick trace_module readings observed s
            = some (osDelay 20 (IoTWatchDogDisable (trace_module s))))
      ∧ (s.g_car_status = CarStatus.CAR_OBSTACLE_AVOIDANCE_STATUS →
          RobotCarTestTask_tick trace_module readings observed s
            = (car_mode_control_func readings observed s).map
                (fun s1 => osDelay 20 (IoTWatchDogDisable s1)))
      ∧ (s.g_car_status = CarStatus.CAR_CONTROL_STATUS →
          RobotCarTestTask_tick trace_module readings observed s
            = some (osDelay 20 (IoTWatchDogDisable s))) := by
  refine ⟨fun h => ⟨?_, by decide⟩, fun h => ?_, fun h => ?_, fun h => ?_, fun h => ?_,
    fun h => ?_⟩
  · simp [RobotCarTestTask_tick, h, osDelay, IoTWatchDogDisable, Car.log]
  · simp [RobotCarTestTask_tick, h, osDelay, IoTWatchDogDisable, Car.log, car_stop_eq]
  · simp [RobotCarTestTask_tick, h]
  · simp [RobotCarTestTask_tick, h]
  · simp [RobotCarTestTask_tick, h]
  · simp [RobotCarTestTask_tick, h]

theorem C11_dispatch_tick_witness :
    (RobotCarTestTask_tick car_backward (fun _ => (30, 10, 10)) []
        { car_forward (startup 0) with g_car_status := CarStatus.CAR_CONTROL_STATUS }).map
        (fun s1 => (s1.pwm, s1.MOVING_STATUS))
      = some ({ pwm0 := none, pwm1 := some (6000, 8000), pwm3 := none,
                pwm4 := some (6000, 8000) }, 0)
      ∧ (RobotCarTestTask_tick car_backward (fun _ => (30, 10, 10)) []
          (car_forward (startup 0))).map (fun s1 => s1.pwm) = some PwmChannels.off
      ∧ (RobotCarTestTask_tick car_backward (fun _ => (30, 10, 10)) []
          { car_forward (startup 0) with g_car_status := CarStatus.CAR_TRACE_STATUS }).map
          (fun s1 => s1.pwm)
        = some { pwm0 := some (5000, 8000), pwm1 := none, pwm3 := some (5000, 8000),
                 pwm4 := none } := by
  refine ⟨?_, ?_, ?_⟩
  · rw [((C11_dispatch_tick car_backward (fun _ => (30, 10, 10)) []
      { car_forward (startup 0) with g_car_status := CarStatus.CAR_CONTROL_STATUS }).1 rfl).1]
    rfl
  · rw [(C11_dispatch_tick car_backward (fun _ => (30, 10, 10)) []
      (car_forward (startup 0))).2.1 rfl]
    rfl
  · rw [(C11_dispatch_tick car_backward (fun _ => (30, 10, 10)) []
      { car_forward (startup 0) with g_car_status := CarStatus.CAR_TRACE_STATUS }).2.2.2.1 rfl]
    rfl

/-- C12: from the startup values (forward 6000, backward 5000, turn 6000), after every
finite sequence of sampling passes, whatever each pass turns out to be (mode-advance,
speed-adjust, unclassified or failed), `SPEED_FORWARD` is one of 4000, 5000, 6000, 7000,
8000 and `SPEED_BACKWARD` and `SPEED_TURN` are still 5000 and 6000; so all three are at
most `PWM_DUTY_MAX`, and every duty that `car_forward`, `car_backward`, `car_left`,
`car_right` or `car_stop` then passes to `hi_pwm_start` is at most `PWM_DUTY_MAX` = 8000. -/
theorem C12_speed_profile_bounded (KEY_INTERRUPT_PROTECT_TIME : Nat) (hi_get_tick : Nat)
    (passes : List ((Nat → Option Nat) × Nat)) :
    (input_events KEY_INTERRUPT_PROTECT_TIME (startup hi_get_tick) passes).SPEED_FORWARD
        ∈ [4000, 5000, 6000, 7000, 8000]
      ∧ (input_events KEY_INTERRUPT_PROTECT_TIME (startup hi_get_tick) passes).SPEED_BACKWARD
        = 5000
      ∧ (input_events KEY_INTERRUPT_PROTECT_TIME (startup hi_get_tick) passes).SPEED_TURN = 6000
      ∧ (input_events KEY_INTERRUPT_PROTECT_TIME (startup hi_get_tick) passes).SPEED_FORWARD
        ≤ PWM_DUTY_MAX
      ∧ (input_events KEY_INTERRUPT_PROTECT_TIME (startup hi_get_tick) passes).SPEED_BACKWARD
        ≤ PWM_DUTY_MAX
      ∧ (input_events KEY_INTERRUPT_PROTECT_TIME (startup hi_get_tick) passes).SPEED_TURN
        ≤ PWM_DUTY_MAX
      ∧ PWM_DUTY_MAX = 8000
      ∧ (∀ d ∈ started_duties
            (appended (input_events KEY_INTERRUPT_PROTECT_TIME (startup hi_get_tick) passes)
              (car_forward
                (input_events KEY_INTERRUPT_PROTECT_TIME (startup hi_get_tick) passes))),
          d ≤ PWM_DUTY_MAX)
      ∧ (∀ d ∈ started_duties
            (appended (input_events KEY_INTERRUPT_PROTECT_TIME (startup hi_get_tick) passes)
              (car_backward
                (input_events KEY_INTERRUPT_PROTECT_TIME (startup hi_get_tick) passes))),
          d ≤ PWM_DUTY_MAX)
      ∧ (∀ d ∈ started_duties
            (appended (input_events KEY_INTERRUPT_PROTECT_TIME (startup hi_get_tick) passes)
              (car_left
                (input_events KEY_INTERRUPT_PROTECT_TIME (startup hi_get_tick) passes))),
          d ≤ PWM_DUTY_MAX)
      ∧ (∀ d ∈ started_duties
            (appended (input_events KEY_INTERRUPT_PROTECT_TIME (startup hi_get_tick) passes)
              (car_right
                (input_events KEY_INTERRUPT_PROTECT_TIME (startup hi_get_tick) passes))),
          d ≤ PWM_DUTY_MAX)
      ∧ (∀ d ∈ started_duties
            (appended (input_events KEY_INTERRUPT_PROTECT_TIME (startup hi_get_tick) passes)
              (car_stop
                (input_events KEY_INTERRUPT_PROTECT_TIME (startup hi_get_tick) passes))),
          d ≤ PWM_DUTY_MAX) := by
  obtain ⟨ht, hb, hf⟩ := input_events_profile KEY_INTERRUPT_PROTECT_TIME passes
    (startup hi_get_tick) rfl rfl (by simp [startup])
  have hf8 : (input_events KEY_INTERRUPT_PROTECT_TIME (startup hi_get_tick)
      passes).SPEED_FORWARD ≤ 8000 := by
    simp only [List.mem_cons, List.mem_singleton, List.not_mem_nil, or_false] at hf
    omega
  rw [appended_forward, appended_backward, appended_left, appended_right, appended_stop]
  refine ⟨hf, hb, ht, ?_, ?_, ?_, rfl, ?_, ?_, ?_, ?_, ?_⟩
  · unfold PWM_DUTY_MAX; exact hf8
  · unfold PWM_DUTY_MAX; omega
  · unfold PWM_DUTY_MAX; omega
  · intro d hd
    simp only [car_forward_events, car_stop_events, List.cons_append, List.nil_append,
      started_duties, List.mem_cons, List.mem_singleton, List.not_mem_nil, or_false,
      or_self] at hd
    unfold PWM_DUTY_MAX; omega
  · intro d hd
    simp only [car_backward_events, car_stop_events, List.cons_append, List.nil_append,
      started_duties, List.mem_cons, List.mem_singleton, List.not_mem_nil, or_false,
      or_self] at hd
    unfold PWM_DUTY_MAX; omega
  · intro d hd
    simp only [car_left_events, car_stop_events, List.cons_append, List.nil_append,
      started_duties, List.mem_cons, List.mem_singleton, List.not_mem_nil, or_false] at hd
    unfold PWM_DUTY_MAX; omega
  · intro d hd
    simp only [car_right_events, car_stop_events, List.cons_append, List.nil_append,
      started_duties, List.mem_cons, List.mem_singleton, List.not_mem_nil, or_false] at hd
    unfold PWM_DUTY_MAX; omega
  · intro d hd
    simp [car_stop_events, started_duties] at hd

theorem C12_speed_profile_bounded_witness :
    (input_events 30 (startup 0)
        [(fun _ => some 500, 100), (fun _ => none, 200), (fun _ => some 100, 300),
         (fun _ => some 500, 400), (fun _ => some 500, 500)]).SPEED_FORWARD
        ∈ [4000, 5000, 6000, 7000, 8000]
      ∧ (∀ d ∈ started_duties
            (appended
              (input_events 30 (startup 0)
                [(fun _ => some 500, 100), (fun _ => none, 200), (fun _ => some 100, 300),
                 (fun _ => some 500, 400), (fun _ => some 500, 500)])
              (car_left
                (input_events 30 (startup 0)
                  [(fun _ => some 500, 100), (fun _ => none, 200), (fun _ => some 100, 300),
                   (fun _ => some 500, 400), (fun _ => some 500, 500)]))),
          d ≤ 8000) :=
  ⟨(C12_speed_profile_bounded 30 0
      [(fun _ => some 500, 100), (fun _ => none, 200), (fun _ => some 100, 300),
       (fun _ => some 500, 400), (fun _ => some 500, 500)]).1,
   (C12_speed_profile_bounded 30 0
      [(fun _ => some 500, 100), (fun _ => none, 200), (fun _ => some 100, 300),
       (fun _ => some 500, 400), (fun _ => some 500, 500)]).2.2.2.2.2.2.2.2.2.1⟩

/-- C13, evaluated on the code: in the startup state, which is a reachable speed profile,
`car_left` runs its full-speed channel PWM3 and its reduced channel PWM1 at the same duty
6000, and `car_right` runs PWM0 and PWM4 at the same duty 6000; after three speed-adjust
events `SPEED_FORWARD` is 4000 and the full-speed channel carries less than the reduced one.
So the full-speed duty is not strictly greater than the reduced duty there. -/
theorem C13_turn_duties_at_startup :
    reachable_profile (startup 0)
      ∧ reachable_profile (speed_adjust^[3] (startup 0))
      ∧ duty (car_left (startup 0)).pwm.pwm3 = 6000
      ∧ duty (car_left (startup 0)).pwm.pwm1 = 6000
      ∧ duty (car_right (startup 0)).pwm.pwm0 = 6000
      ∧ duty (car_right (startup 0)).pwm.pwm4 = 6000
      ∧ ¬ (duty (car_left (startup 0)).pwm.pwm3 > duty (car_left (startup 0)).pwm.pwm1)
      ∧ ¬ (duty (car_right (startup 0)).pwm.pwm0 > duty (car_right (startup 0)).pwm.pwm4)
      ∧ duty (car_left (speed_adjust^[3] (startup 0))).pwm.pwm3 = 4000
      ∧ duty (car_left (speed_adjust^[3] (startup 0))).pwm.pwm1 = 6000
      ∧ duty (car_right (speed_adjust^[3] (startup 0))).pwm.pwm0 = 4000
      ∧ duty (car_right (speed_adjust^[3] (startup 0))).pwm.pwm4 = 6000 :=
  ⟨⟨0, rfl, rfl, rfl⟩, ⟨3, rfl, rfl, rfl⟩, by decide, by decide, by decide, by decide,
    by decide, by decide, by decide, by decide, by decide, by decide⟩

/-- C15: for every state, every tick and every sampling pass whose 20 reads succeed: when
the maximum voltage lies in the speed band (strictly between 0.6 and 1.5) the pass changes
`SPEED_FORWARD` (to the value plus 1000, or to 4000 from above 7000), whatever the tick and
the stored timestamp are, and leaves the mode, the debounce timestamp and the other two
speeds unchanged; when it lies in the mode band (strictly between 0.01 and 0.3) the pass
leaves all three speeds unchanged. -/
theorem C15_band_frames (KEY_INTERRUPT_PROTECT_TIME : Nat) (hi_adc_read : Nat → Option Nat)
    (hi_get_tick : Nat) (s : Car) (window : List Nat) (hlen : window.length = 20)
    (hread : ∀ i, i < 20 → hi_adc_read i = window[i]?) :
    (code_voltage (window.foldl max 0) > 0.6 ∧ code_voltage (window.foldl max 0) < 1.5 →
        (get_gpio5_voltage KEY_INTERRUPT_PROTECT_TIME hi_adc_read hi_get_tick s).SPEED_FORWARD
            ≠ s.SPEED_FORWARD
          ∧ (get_gpio5_voltage KEY_INTERRUPT_PROTECT_TIME hi_adc_read hi_get_tick
              s).SPEED_FORWARD
            = (if s.SPEED_FORWARD ≤ 7000 then s.SPEED_FORWARD + 1000 else 4000)
          ∧ (get_gpio5_voltage KEY_INTERRUPT_PROTECT_TIME hi_adc_read hi_get_tick
              s).g_car_status = s.g_car_status
          ∧ (get_gpio5_voltage KEY_INTERRUPT_PROTECT_TIME hi_adc_read hi_get_tick
              s).g_gpio5_tick = s.g_gpio5_tick
          ∧ (get_gpio5_voltage KEY_INTERRUPT_PROTECT_TIME hi_adc_read hi_get_tick
              s).SPEED_TURN = s.SPEED_TURN
          ∧ (get_gpio5_voltage KEY_INTERRUPT_PROTECT_TIME hi_adc_read hi_get_tick
              s).SPEED_BACKWARD = s.SPEED_BACKWARD)
      ∧ (code_voltage (window.foldl max 0) > 0.01 ∧ code_voltage (window.foldl max 0) < 0.3 →
          (get_gpio5_voltage KEY_INTERRUPT_PROTECT_TIME hi_adc_read hi_get_tick
              s).SPEED_FORWARD = s.SPEED_FORWARD
            ∧ (get_gpio5_voltage KEY_INTERRUPT_PROTECT_TIME hi_adc_read hi_get_tick
                s).SPEED_TURN = s.SPEED_TURN
            ∧ (get_gpio5_voltage KEY_INTERRUPT_PROTECT_TIME hi_adc_read hi_get_tick
                s).SPEED_BACKWARD = s.SPEED_BACKWARD) := by
  have hA := get_gpio5_voltage_ok_sampled KEY_INTERRUPT_PROTECT_TIME hi_adc_read hi_get_tick
    s window hlen hread
  constructor
  · intro hsp
    have hsp2 := (speed_band_iff _).mp hsp
    have hnm : ¬ (6 ≤ window.foldl max 0 ∧ window.foldl max 0 ≤ 170) := by omega
    rw [hA, if_neg hnm, if_pos hsp2]
    obtain ⟨h1, h2, h3, h4⟩ := speed_adjust_frame s
    exact ⟨speed_adjust_changes s, speed_adjust_forward s, h3, h4, h1, h2⟩
  · intro hm
    have hm2 := (mode_band_iff _).mp hm
    rw [hA, if_pos hm2]
    exact isr_speeds KEY_INTERRUPT_PROTECT_TIME hi_get_tick s

theorem C15_band_frames_witness :
    (get_gpio5_voltage 30 (fun i => (List.replicate 20 569)[i]?) 5
        (startup 0)).SPEED_FORWARD = 7000
      ∧ (get_gpio5_voltage 30 (fun i => (List.replicate 20 569)[i]?) 5
          (startup 0)).g_car_status = CarStatus.CAR_STOP_STATUS
      ∧ (get_gpio5_voltage 30 (fun i => (List.replicate 20 569)[i]?) 5
          (startup 0)).g_gpio5_tick = 0
      ∧ (get_gpio5_voltage 30 (fun i => (List.replicate 20 85)[i]?) 5
          (startup 0)).SPEED_FORWARD = 6000 := by
  have h1 := (C15_band_frames 30 (fun i => (List.replicate 20 569)[i]?) 5 (startup 0)
    (List.replicate 20 569) (by decide) (fun _ _ => rfl)).1
    ((speed_band_iff _).mpr (by decide))
  have h2 := (C15_band_frames 30 (fun i => (List.replicate 20 85)[i]?) 5 (startup 0)
    (List.replicate 20 85) (by decide) (fun _ _ => rfl)).2
    ((mode_band_iff _).mpr (by decide))
  exact ⟨h1.2.1, h1.2.2.1, h1.2.2.2.1, h2.1⟩

/-- C14: when the modes read at the top of the successive iterations of the loop of
`car_mode_control_func` are ObstacleAvoidance at the positions below `k` and a different
mode `m` at position `k`, the function returns, and its result is: configure the PWM pins,
recentre, then exactly `k` full iterations (each one ranging read, `car_where_to_go` on that
reading, a delay of 20 ms), then recentre again, with the mode `m` last read.  The delay of
20 ms is recorded exactly `k` times and the last event is the recentring.  For `k = 0`
the record grows only by the pin configuration and two recentrings: no ranging read and no
drive-motor command. -/
theorem C14_avoidance_loop (readings : Nat → ℚ × ℚ × ℚ) (observed : List CarStatus)
    (k : Nat) (m : CarStatus) (s : Car) (hk : observed[k]? = some m)
    (hm : m ≠ CarStatus.CAR_OBSTACLE_AVOIDANCE_STATUS)
    (hprev : ∀ j, j < k → observed[j]? = some CarStatus.CAR_OBSTACLE_AVOIDANCE_STATUS) :
    car_mode_control_func readings observed s
        = some { regress_middle
                  (full_iterations readings k 0 (regress_middle (pwm_init s))) with
                 g_car_status := m }
      ∧ (∀ s1, car_mode_control_func readings observed s = some s1 →
          (appended s s1).count (Event.hi_sleep 20) = k
            ∧ (appended s s1).getLast? = some Event.regress_middle)
      ∧ (k = 0 →
          car_mode_control_func readings observed s
            = some { s with
                g_car_status := m
                trace := s.trace ++ pwm_init_events
                  ++ [Event.regress_middle, Event.regress_middle] })
      ∧ (∀ e ∈ pwm_init_events ++ [Event.regress_middle, Event.regress_middle],
          e.is_drive = false ∧ e ≠ Event.GetDistance) := by
  have hmain : car_mode_control_func readings observed s
      = some { regress_middle
                (full_iterations readings k 0 (regress_middle (pwm_init s))) with
               g_car_status := m } := by
    unfold car_mode_control_func
    exact car_mode_control_loop_exit readings k observed 0 _ m hk hm hprev
  refine ⟨hmain, ?_, ?_, by decide⟩
  · intro s1 hs1
    rw [hmain] at hs1
    have hs1 := (Option.some.inj hs1).symm
    obtain ⟨X, hX, hc⟩ := full_iterations_trace readings k 0 (regress_middle (pwm_init s))
    have htrace : s1.trace
        = s.trace ++ (pwm_init_events ++ [Event.regress_middle] ++ X
            ++ [Event.regress_middle]) := by
      rw [hs1]
      simp only [regress_middle, Car.log] at hX ⊢
      rw [hX, pwm_init_eq]
      simp
    unfold appended
    rw [htrace, List.drop_left]
    constructor
    · have h1 : pwm_init_events.count (Event.hi_sleep 20) = 0 := by decide
      have h2 : [Event.regress_middle].count (Event.hi_sleep 20) = 0 := by decide
      simp only [List.count_append, hc, h1, h2]
      omega
    · exact List.getLast?_concat _
  · intro h0
    subst h0
    rw [hmain]
    simp [full_iterations, regress_middle, Car.log, pwm_init_eq]

theorem C14_avoidance_loop_witness :
    (car_mode_control_func (fun _ => (25, 0, 0))
        [CarStatus.CAR_OBSTACLE_AVOIDANCE_STATUS, CarStatus.CAR_OBSTACLE_AVOIDANCE_STATUS,
         CarStatus.CAR_CONTROL_STATUS, CarStatus.CAR_OBSTACLE_AVOIDANCE_STATUS]
        (startup 0)).map (fun s1 => (s1.g_car_status, s1.MOVING_STATUS, s1.trace.length))
      = some (CarStatus.CAR_CONTROL_STATUS, 3, 32)
      ∧ car_mode_control_func (fun _ => (5, 0, 0)) [CarStatus.CAR_STOP_STATUS] (startup 0)
        = some { startup 0 with
            trace := pwm_init_events ++ [Event.regress_middle, Event.regress_middle] } := by
  have h2 := C14_avoidance_loop (fun _ => (25, 0, 0))
    [CarStatus.CAR_OBSTACLE_AVOIDANCE_STATUS, CarStatus.CAR_OBSTACLE_AVOIDANCE_STATUS,
     CarStatus.CAR_CONTROL_STATUS, CarStatus.CAR_OBSTACLE_AVOIDANCE_STATUS]
    2 CarStatus.CAR_CONTROL_STATUS (startup 0) rfl (by decide)
    (fun j hj => by
      rcases Nat.lt_succ_iff_lt_or_eq.mp hj with h | h
      · have : j = 0 := by omega
        subst this; rfl
      · subst h; rfl)
  have h0 := C14_avoidance_loop (fun _ => (5, 0, 0)) [CarStatus.CAR_STOP_STATUS]
    0 CarStatus.CAR_STOP_STATUS (startup 0) rfl (by decide) (fun j hj => by omega)
  refine ⟨?_, ?_⟩
  · rw [h2.1]
    have hfar : ¬ (25 : ℚ) < DISTANCE_BETWEEN_CAR_AND_OBSTACLE := by
      norm_num [DISTANCE_BETWEEN_CAR_AND_OBSTACLE]
    simp [full_iterations, full_iteration, GetDistance, hi_sleep, regress_middle, Car.log,
      car_where_to_go_far _ _ _ _ hfar, pwm_init_eq, pwm_init_events, car_forward_events,
      car_stop_events, startup]
  · rw [h0.2.2.1 rfl]
    rfl

end RobotCar
